import Mathlib

/-!
Verification of the NPC-simulation core of the Irongate Penitentiary
repository: the game clock and period scheduler (timeSystem), the
perception engine, patrol controller and schedule applier (npcSystems),
and the dialogue engine (store).  Definitions are shallow embeddings of
the TypeScript source; `number` values are modelled as `ℚ` where the code
only performs field arithmetic and comparisons, and as `ℝ` where the code
takes square roots or arc-tangents.  TypeScript string-literal unions are
modelled as `String`, `Record` objects as association lists, `Set<string>`
as `Finset String`, and optional fields as `Option`.
-/

namespace Escape

/-- Association-list lookup, modelling JavaScript object indexing
`obj[key]` over a `Record<string, α>`. -/
def alookup {α : Type} : List (String × α) → String → Option α
  | [], _ => none
  | (k, v) :: rest, key => if key = k then some v else alookup rest key

/-- Keyed update `{...obj, [key]: f (obj[key])}`: replaces the value at
`key` in place (JavaScript objects keep the key's insertion position). -/
def aupdate {α : Type} : List (String × α) → String → (α → α) → List (String × α)
  | [], _, _ => []
  | (k, v) :: rest, key, f =>
      if key = k then (k, f v) :: rest else (k, v) :: aupdate rest key f

-- ========================================
-- TIME SYSTEM (timeSystem.ts)
-- ========================================

/-- `TimePeriod` from types.ts (the `name` field is display-only and
irrelevant to period lookup, so it is omitted from the embedding).  The
configured boundary values are integers, and every call site of the
period lookup passes the stored integer `hour`/`minute` of a `GameTime`,
so the boundary arithmetic is modelled over `ℤ`. -/
structure TimePeriod where
  id : String
  startHour : ℤ
  startMinute : ℤ
  endHour : ℤ
  endMinute : ℤ
deriving DecidableEq, Repr

/-- `GameTime` from types.ts.  The code always stores floored integer
`day`/`hour`/`minute` (see `advanceTime`), so those fields are `ℤ`;
`totalMinutes` stays continuous. -/
structure GameTime where
  day : ℤ
  hour : ℤ
  minute : ℤ
  totalMinutes : ℚ
deriving DecidableEq, Repr

/-- `TIME_PERIODS` from timeSystem.ts. -/
def TIME_PERIODS : List TimePeriod :=
  [ ⟨"early_morning", 6, 0, 7, 0⟩
  , ⟨"breakfast", 7, 0, 8, 0⟩
  , ⟨"morning_work", 8, 0, 12, 0⟩
  , ⟨"lunch", 12, 0, 13, 0⟩
  , ⟨"afternoon_work", 13, 0, 16, 0⟩
  , ⟨"recreation", 16, 0, 18, 0⟩
  , ⟨"dinner", 18, 0, 20, 0⟩
  , ⟨"evening_free", 20, 0, 22, 0⟩
  , ⟨"lockdown", 22, 0, 6, 0⟩ ]

/-- `timeToMinutes` from timeSystem.ts. -/
def timeToMinutes (hour minute : ℤ) : ℤ := hour * 60 + minute

/-- The `for (const period of TIME_PERIODS)` scan inside
`getPeriodForTime`: first matching period wins, falling through to the
next list entry otherwise.  The wrap-around branch tests
`currentMinutes >= startMinutes || currentMinutes < end` against the
unextended end (the `endMinutes += 24*60` assignment in the source is
dead: the comparison reads `timeToMinutes(period.endHour, period.endMinute)`
afresh). -/
def periodScan (currentMinutes : ℤ) : List TimePeriod → Option String
  | [] => none
  | p :: rest =>
      let startMinutes := timeToMinutes p.startHour p.startMinute
      let endMinutes := timeToMinutes p.endHour p.endMinute
      if endMinutes ≤ startMinutes then
        if currentMinutes ≥ startMinutes ∨ currentMinutes < endMinutes then
          some p.id
        else periodScan currentMinutes rest
      else
        if currentMinutes ≥ startMinutes ∧ currentMinutes < endMinutes then
          some p.id
        else periodScan currentMinutes rest

/-- `getPeriodForTime` from timeSystem.ts: scan `TIME_PERIODS` in order,
falling back to `'lockdown'`. -/
def getPeriodForTime (hour minute : ℤ) : String :=
  (periodScan (timeToMinutes hour minute) TIME_PERIODS).getD "lockdown"

/-- The `while (newMinute >= 60) { newMinute -= 60; newHour += 1 }` loop of
`advanceTime`.  The minute accumulator is rational (real elapsed time times
scale); each iteration moves one hour's worth of minutes into the hour. -/
def minuteLoop (m : ℚ) (h : ℤ) : ℚ × ℤ :=
  if 60 ≤ m then minuteLoop (m - 60) (h + 1) else (m, h)
termination_by (⌈m⌉ / 60 + 1).toNat
decreasing_by
  have h60 : (60 : ℤ) ≤ ⌈m⌉ := by
    exact_mod_cast Int.le_ceil_iff.mpr (by push_cast; linarith)
  have : ⌈m - 60⌉ = ⌈m⌉ - 60 := by
    rw [show (60 : ℚ) = ((60 : ℤ) : ℚ) by norm_num, Int.ceil_sub_int]
  rw [this]
  omega

/-- The `while (newHour >= 24) { newHour -= 24; newDay += 1 }` loop of
`advanceTime`. -/
def hourLoop (h : ℤ) (d : ℤ) : ℤ × ℤ :=
  if 24 ≤ h then hourLoop (h - 24) (d + 1) else (h, d)
termination_by (h + 1).toNat
decreasing_by omega

/-- Result record of `advanceTime`. -/
structure AdvanceResult where
  newTime : GameTime
  periodChanged : Bool
  newPeriod : String
deriving DecidableEq, Repr

/-- `advanceTime` from timeSystem.ts: convert real elapsed milliseconds to
game minutes via `timeScale`, accumulate, roll minutes into hours and hours
into days, then clamp-and-floor the stored hour and minute. -/
def advanceTime (currentTime : GameTime) (realDeltaMs : ℚ) (timeScale : ℚ) :
    AdvanceResult :=
  let oldPeriod := getPeriodForTime currentTime.hour currentTime.minute
  let gameMinutesElapsed := realDeltaMs / 1000 * timeScale
  let newTotalMinutes := currentTime.totalMinutes + gameMinutesElapsed
  let mh := minuteLoop ((currentTime.minute : ℚ) + gameMinutesElapsed) currentTime.hour
  let hd := hourLoop mh.2 currentTime.day
  let finalHour := max 0 (min 23 hd.1)
  let finalMinute := max 0 (min 59 ⌊mh.1⌋)
  let newTime : GameTime :=
    { day := hd.2, hour := finalHour, minute := finalMinute,
      totalMinutes := newTotalMinutes }
  let newPeriod := getPeriodForTime newTime.hour newTime.minute
  { newTime := newTime, periodChanged := oldPeriod ≠ newPeriod,
    newPeriod := newPeriod }

-- ========================================
-- GEOMETRY AND NPC DATA MODEL (types.ts)
-- ========================================

/-- `Direction` from types.ts. -/
inductive Direction where
  | up | down | left | right
deriving DecidableEq, Repr

/-- Grid-coordinate `Position` from types.ts.  Every stored grid
coordinate is an integer: registry data uses integer cells, and the only
writes are waypoint cells, spawn cells and `Math.floor`/`Math.round`
results, so the field is modelled over `ℤ`. -/
structure Position where
  x : ℤ
  y : ℤ
deriving DecidableEq, Repr

/-- Pixel-coordinate positions (`pixelPosition`, `targetPixelPosition`).
Patrol interpolation divides by a Euclidean distance, so these live in `ℝ`. -/
structure PixelPos where
  x : ℝ
  y : ℝ

/-- `Room` from types.ts, restricted to the fields the NPC core reads:
bounds and the tile grid (`TileType` as a string). -/
structure Room where
  id : String
  width : ℤ
  height : ℤ
  tiles : List (List String)

/-- `room.tiles[y][x]` after the bounds check (out-of-range reads, which
cannot occur after the check, default to a non-wall value). -/
def tileAt (room : Room) (x y : ℤ) : String :=
  (room.tiles.getD y.toNat []).getD x.toNat ""

/-- `PatrolPoint` from types.ts. -/
structure PatrolPoint where
  room : String
  col : ℤ
  row : ℤ
  wait : ℚ
  direction : Option Direction
deriving DecidableEq, Repr

/-- `NPCScheduleEntry` from types.ts. -/
structure NPCScheduleEntry where
  behavior : String
  room : Option String
  patrolRoute : Option String
deriving DecidableEq, Repr

/-- `NPCData` from types.ts.  `flags` is a `Record<string, boolean>`
modelled as its membership function; `relationshipLevel` deltas in the
dialogue data are integers, so that field is `ℤ`. -/
structure NPCData where
  id : String
  name : String
  type : String
  sprite : String
  currentRoom : String
  position : Position
  direction : Direction
  patrolRoute : List PatrolPoint
  currentPatrolIndex : ℕ
  movementSpeed : ℚ
  isMoving : Bool
  targetPosition : Option Position
  pixelPosition : PixelPos
  targetPixelPosition : PixelPos
  waitTimer : Option ℚ
  schedule : List (String × NPCScheduleEntry)
  currentBehavior : String
  alertness : ℚ
  visionRange : ℚ
  visionAngle : ℚ
  dialogueTree : Option String
  relationshipLevel : ℤ
  talkedTo : Bool
  isConscious : Bool
  isAlive : Bool
  flags : String → Bool

/-- `Partial<NPCData>` as produced by `updatePatrol` and
`updateNPCSchedule`: every field that those functions may emit, absent by
default.  A `targetPosition` entry can itself be `null`, hence the nested
`Option`. -/
structure NPCPatch where
  currentRoom : Option String := none
  position : Option Position := none
  direction : Option Direction := none
  currentPatrolIndex : Option ℕ := none
  isMoving : Option Bool := none
  targetPosition : Option (Option Position) := none
  pixelPosition : Option PixelPos := none
  targetPixelPosition : Option PixelPos := none
  waitTimer : Option ℚ := none
  currentBehavior : Option String := none

/-- `Object.keys(patch).length > 0` is false: no field present. -/
def NPCPatch.isEmpty (p : NPCPatch) : Bool :=
  p.currentRoom.isNone && p.position.isNone && p.direction.isNone &&
  p.currentPatrolIndex.isNone && p.isMoving.isNone && p.targetPosition.isNone &&
  p.pixelPosition.isNone && p.targetPixelPosition.isNone &&
  p.waitTimer.isNone && p.currentBehavior.isNone

/-- The spread merge `{...npc, ...patch}`. -/
def mergePatch (npc : NPCData) (p : NPCPatch) : NPCData :=
  { npc with
    currentRoom := p.currentRoom.getD npc.currentRoom
    position := p.position.getD npc.position
    direction := p.direction.getD npc.direction
    currentPatrolIndex := p.currentPatrolIndex.getD npc.currentPatrolIndex
    isMoving := p.isMoving.getD npc.isMoving
    targetPosition := p.targetPosition.getD npc.targetPosition
    pixelPosition := p.pixelPosition.getD npc.pixelPosition
    targetPixelPosition := p.targetPixelPosition.getD npc.targetPixelPosition
    waitTimer := (p.waitTimer.map some).getD npc.waitTimer
    currentBehavior := p.currentBehavior.getD npc.currentBehavior }

/-- `TILE_SIZE` from constants.ts (32 pixels per tile, per the
architecture document). -/
def TILE_SIZE : ℚ := 32

/-- JavaScript truthiness of an optional string: `undefined` and the empty
string are falsy. -/
def strTruthy (o : Option String) : Bool := (o.getD "") ≠ ""

/-- `Math.abs` on the integer-valued quantities it is applied to. -/
def intAbs (n : ℤ) : ℤ := if n < 0 then -n else n

-- ========================================
-- PATROL SYSTEM (npcSystems.ts)
-- ========================================

/-- `getDirectionToTarget` from npcSystems.ts: horizontal dominance picks
left/right, otherwise (including ties) vertical picks up/down. -/
def getDirectionToTarget (fromPos toPos : Position) : Direction :=
  let dx := toPos.x - fromPos.x
  let dy := toPos.y - fromPos.y
  if intAbs dx > intAbs dy then (if dx > 0 then .right else .left)
  else (if dy > 0 then .down else .up)

/-- Fallback patrol point for an out-of-range route index (the code never
reads one: `currentPatrolIndex` is kept in range by the modulo advance). -/
def defaultPoint : PatrolPoint := ⟨"", 0, 0, 0, none⟩

/-- `updatePatrol` from npcSystems.ts (the final snapshot, with wait-timer
logic; the store imports this version together with `updateNPCSchedule`).
Returns the `Partial<NPCData>` patch of the tick. -/
noncomputable def updatePatrol (npc : NPCData) (deltaTime : ℚ) : NPCPatch :=
  if ¬ (npc.currentBehavior = "patrol") ∨ npc.patrolRoute.length = 0 then {}
  else
    let currentPoint := (npc.patrolRoute.get? npc.currentPatrolIndex).getD defaultPoint
    if npc.isMoving = false then
      let waitTimer := npc.waitTimer.getD 0
      let waitDuration := currentPoint.wait
      if waitTimer < waitDuration then
        { waitTimer := some (waitTimer + deltaTime) }
      else
        let nextIndex := (npc.currentPatrolIndex + 1) % npc.patrolRoute.length
        let nextPoint := (npc.patrolRoute.get? nextIndex).getD defaultPoint
        { isMoving := some true
          targetPosition := some (some ⟨nextPoint.col, nextPoint.row⟩)
          targetPixelPosition :=
            some ⟨(((nextPoint.col : ℚ) * TILE_SIZE : ℚ) : ℝ),
                  (((nextPoint.row : ℚ) * TILE_SIZE : ℚ) : ℝ)⟩
          currentPatrolIndex := some nextIndex
          waitTimer := some 0
          direction := some (getDirectionToTarget npc.position ⟨nextPoint.col, nextPoint.row⟩) }
    else
      match npc.targetPosition with
      | none => {}
      | some target =>
        let targetPixel : PixelPos :=
          ⟨(((target.x : ℚ) * TILE_SIZE : ℚ) : ℝ), (((target.y : ℚ) * TILE_SIZE : ℚ) : ℝ)⟩
        let speed := npc.movementSpeed * TILE_SIZE
        let distance := speed * deltaTime
        let dx := targetPixel.x - npc.pixelPosition.x
        let dy := targetPixel.y - npc.pixelPosition.y
        let distToTarget := Real.sqrt (dx * dx + dy * dy)
        if distToTarget ≤ ((distance : ℚ) : ℝ) then
          { position := some target
            pixelPosition := some targetPixel
            targetPixelPosition := some targetPixel
            isMoving := some false
            targetPosition := some none
            direction := some (currentPoint.direction.getD npc.direction) }
        else
          let ratio := ((distance : ℚ) : ℝ) / distToTarget
          let newPixelPos : PixelPos :=
            ⟨npc.pixelPosition.x + dx * ratio, npc.pixelPosition.y + dy * ratio⟩
          let centerX := newPixelPos.x + ((TILE_SIZE : ℚ) : ℝ) / 2
          let centerY := newPixelPos.y + ((TILE_SIZE : ℚ) : ℝ) / 2
          let newGridPos : Position :=
            ⟨⌊centerX / ((TILE_SIZE : ℚ) : ℝ)⌋, ⌊centerY / ((TILE_SIZE : ℚ) : ℝ)⌋⟩
          { pixelPosition := some newPixelPos
            position := some newGridPos }

-- ========================================
-- VISION SYSTEM (npcSystems.ts)
-- ========================================

/-- `Math.round`: round half toward positive infinity. -/
def jsRound (q : ℚ) : ℤ := ⌊q + 1 / 2⌋

/-- One sampled cell of the `hasLineOfSight` raycast: parameter `t = i/distance`
(or `0` on the degenerate zero-length ray), rounded to an integer cell, which
must be inside the room and not a wall. -/
def losSampleOk (fromPos : Position) (room : Room) (dx dy distance : ℤ)
    (i : ℕ) : Bool :=
  let t : ℚ := if distance = 0 then 0 else (i : ℚ) / (distance : ℚ)
  let x := jsRound ((fromPos.x : ℚ) + (dx : ℚ) * t)
  let y := jsRound ((fromPos.y : ℚ) + (dy : ℚ) * t)
  if x < 0 ∨ x ≥ room.width ∨ y < 0 ∨ y ≥ room.height then false
  else ¬ (tileAt room x y = "wall")

/-- The `for (let i = 0; i <= distance; i++)` loop of `hasLineOfSight`,
returning false at the first failing sample. -/
def losLoop (fromPos : Position) (room : Room) (dx dy distance : ℤ)
    (i : ℕ) : Bool :=
  if (i : ℤ) ≤ distance then
    losSampleOk fromPos room dx dy distance i &&
      losLoop fromPos room dx dy distance (i + 1)
  else true
termination_by (distance + 1 - i).toNat
decreasing_by
  rename_i hle
  omega

/-- `hasLineOfSight` from npcSystems.ts: sample `max(|Δx|,|Δy|)+1` points
along the segment; false iff a sampled cell is out of bounds or a wall. -/
def hasLineOfSight (fromPos toPos : Position) (room : Room) : Bool :=
  let dx := toPos.x - fromPos.x
  let dy := toPos.y - fromPos.y
  let distance := max (intAbs dx) (intAbs dy)
  losLoop fromPos room dx dy distance 0

/-- `getAngleFromDirection` from npcSystems.ts (degrees; right = 0°,
down = 90°, left = 180°, up = 270°). -/
def getAngleFromDirection : Direction → ℝ
  | .right => 0
  | .down => 90
  | .left => 180
  | .up => 270

/-- `Math.atan2(y, x)` (radians in (-π, π]), by quadrant. -/
noncomputable def mathAtan2 (y x : ℝ) : ℝ :=
  if 0 < x then Real.arctan (y / x)
  else if x < 0 ∧ 0 ≤ y then Real.arctan (y / x) + Real.pi
  else if x < 0 ∧ y < 0 then Real.arctan (y / x) - Real.pi
  else if 0 < y then Real.pi / 2
  else if y < 0 then -(Real.pi / 2)
  else 0

/-- `isPlayerInVisionCone` from npcSystems.ts: range gate, same-tile
short-circuit, angular test against half the cone width, then
line-of-sight. -/
noncomputable def isPlayerInVisionCone (npc : NPCData) (playerPos : Position)
    (room : Room) : Bool :=
  if npc.visionRange = 0 then false
  else
    let dx := playerPos.x - npc.position.x
    let dy := playerPos.y - npc.position.y
    let distance : ℝ := Real.sqrt (((dx * dx + dy * dy : ℤ) : ℚ) : ℝ)
    if distance > ((npc.visionRange : ℚ) : ℝ) then false
    else if distance = 0 then true
    else
      let angleToPlayer := mathAtan2 (dy : ℝ) (dx : ℝ) * (180 / Real.pi)
      let guardAngle := getAngleFromDirection npc.direction
      let halfCone := ((npc.visionAngle : ℚ) : ℝ) / 2
      let angleDiff0 := |angleToPlayer - guardAngle|
      let angleDiff := if angleDiff0 > 180 then 360 - angleDiff0 else angleDiff0
      if angleDiff > halfCone then false
      else hasLineOfSight npc.position playerPos room

/-- `calculateDetectionLevel` from npcSystems.ts. -/
noncomputable def calculateDetectionLevel (npc : NPCData) (playerPos : Position)
    (playerSneaking : Bool) (room : Room) : ℝ :=
  if isPlayerInVisionCone npc playerPos room = false then 0
  else
    let detection : ℝ := 1
    let detection := if playerSneaking then detection * 0.6 else detection
    let dx := playerPos.x - npc.position.x
    let dy := playerPos.y - npc.position.y
    let distance : ℝ := Real.sqrt (((dx * dx + dy * dy : ℤ) : ℚ) : ℝ)
    let distanceFactor := 1 - distance / ((npc.visionRange : ℚ) : ℝ)
    let detection := detection * distanceFactor
    max 0 (min 1 detection)

/-- `shouldReactToPlayer` from npcSystems.ts: guards react above the 0.5
threshold; other kinds never react. -/
noncomputable def shouldReactToPlayer (npc : NPCData) (detectionLevel : ℝ) : Bool :=
  if npc.type = "guard" then (if detectionLevel > 0.5 then true else false)
  else false

-- ========================================
-- NPC INTERACTION (npcSystems.ts)
-- ========================================

/-- `isNPCAdjacentToPlayer` from npcSystems.ts: one-tile orthogonal
adjacency. -/
def isNPCAdjacentToPlayer (npc : NPCData) (playerPos : Position) : Bool :=
  let dx := intAbs (npc.position.x - playerPos.x)
  let dy := intAbs (npc.position.y - playerPos.y)
  (dx = 1 ∧ dy = 0) ∨ (dx = 0 ∧ dy = 1)

/-- `canTalkToNPC` from npcSystems.ts. -/
def canTalkToNPC (npc : NPCData) (playerPos : Position) : Bool :=
  if npc.isConscious = false ∨ npc.isAlive = false then false
  else if strTruthy npc.dialogueTree = false then false
  else if npc.currentBehavior = "chase" then false
  else isNPCAdjacentToPlayer npc playerPos

-- ========================================
-- SCHEDULE SYSTEM (npcSystems.ts)
-- ========================================

/-- `getSpawnPositionForRoom` from npcSystems.ts. -/
def getSpawnPositionForRoom (roomId : String) : Position :=
  (alookup
    [ ("cell_c12", (⟨2, 3⟩ : Position))
    , ("cell_c14", ⟨4, 4⟩)
    , ("corridor_b", ⟨10, 4⟩)
    , ("guard_station_b", ⟨5, 5⟩)
    , ("cafeteria", ⟨7, 5⟩)
    , ("yard", ⟨10, 8⟩) ] roomId).getD ⟨5, 5⟩

/-- `updateNPCSchedule` from npcSystems.ts: apply the schedule directive of
the new period.  Behavior changes always apply; a room change teleports the
actor to the room's spawn position with movement reset, but only when
neither the old nor the new room is the player's current room. -/
noncomputable def updateNPCSchedule (npc : NPCData) (currentPeriod : String)
    (playerCurrentRoom : Option String) : NPCPatch :=
  match alookup npc.schedule currentPeriod with
  | none => {}
  | some scheduleEntry =>
    let changes : NPCPatch :=
      if ¬ (scheduleEntry.behavior = npc.currentBehavior) then
        { currentBehavior := some scheduleEntry.behavior }
      else {}
    if strTruthy scheduleEntry.room ∧ ¬ (scheduleEntry.room = some npc.currentRoom) then
      if ¬ (some npc.currentRoom = playerCurrentRoom) ∧
          ¬ (scheduleEntry.room = playerCurrentRoom) then
        let newRoom := scheduleEntry.room.getD ""
        let newPosition := getSpawnPositionForRoom newRoom
        { changes with
          currentRoom := some newRoom
          position := some newPosition
          pixelPosition :=
            some ⟨(((newPosition.x : ℚ) * TILE_SIZE : ℚ) : ℝ),
                  (((newPosition.y : ℚ) * TILE_SIZE : ℚ) : ℝ)⟩
          targetPixelPosition :=
            some ⟨(((newPosition.x : ℚ) * TILE_SIZE : ℚ) : ℝ),
                  (((newPosition.y : ℚ) * TILE_SIZE : ℚ) : ℝ)⟩
          isMoving := some false
          targetPosition := some none }
      else changes
    else changes

-- ========================================
-- DIALOGUE SYSTEM (types.ts, dialogueData.ts)
-- ========================================

/-- A JavaScript `string | number` value (`DialogueEffect.value`). -/
inductive JsVal where
  | str (s : String)
  | num (n : ℤ)
deriving DecidableEq, Repr

/-- JavaScript truthiness of an optional `string | number`. -/
def valTruthy : Option JsVal → Bool
  | none => false
  | some (.str s) => s ≠ ""
  | some (.num n) => n ≠ 0

/-- `effect.value as string` (the registry only carries strings here; a
numeric value would surface via its decimal text). -/
def valAsString : Option JsVal → String
  | some (.str s) => s
  | some (.num n) => toString n
  | none => ""

/-- `effect.value as number` (the registry only carries integers here). -/
def valAsInt : Option JsVal → ℤ
  | some (.num n) => n
  | _ => 0

/-- `DialogueEffect` from types.ts. -/
structure DialogueEffect where
  etype : String
  value : Option JsVal := none
  itemId : Option String := none
  flagName : Option String := none
deriving DecidableEq, Repr

/-- A `knowledge` effect literal. -/
def kEff (v : String) : DialogueEffect := { etype := "knowledge", value := some (.str v) }

/-- A `relationship` effect literal. -/
def relEff (d : ℤ) : DialogueEffect := { etype := "relationship", value := some (.num d) }

/-- A `flag` effect literal. -/
def flagEff (n : String) : DialogueEffect := { etype := "flag", flagName := some n }

/-- `DialogueResponse` from types.ts (the `conditions` field is never read
by the engine and carries no data in the registry, so it is omitted). -/
structure DialogueResponse where
  text : String
  nextNode : Option String
  effects : Option (List DialogueEffect) := none
deriving DecidableEq, Repr

/-- `DialogueNode` from types.ts. -/
structure DialogueNode where
  id : String
  speaker : String
  text : String
  responses : List DialogueResponse
  effects : Option (List DialogueEffect) := none
  isEnd : Option Bool := none
deriving DecidableEq, Repr

/-- `DialogueTree` from types.ts. -/
structure DialogueTree where
  id : String
  startNode : String
  nodes : List (String × DialogueNode)
deriving DecidableEq, Repr

/-- `oldTimerDialogue` from dialogueData.ts (node text abbreviated to its
opening words; the engine never branches on text). -/
def oldTimerDialogue : DialogueTree :=
  { id := "old_timer_main"
    startNode := "greeting_first"
    nodes :=
    [ ("greeting_first",
       { id := "greeting_first", speaker := "Old Timer"
         text := "New fish, huh?"
         responses :=
         [ { text := "I\x27m trying to get out of here.", nextNode := some "escape_interest" }
         , { text := "How long have you been here?", nextNode := some "backstory" }
         , { text := "Leave me alone.", nextNode := some "end_cold",
             effects := some [relEff (-5)] } ] })
    , ("greeting_return",
       { id := "greeting_return", speaker := "Old Timer"
         text := "Back again? What do you need?"
         responses :=
         [ { text := "Tell me about the guards.", nextNode := some "guard_info" }
         , { text := "Know any way out?", nextNode := some "escape_info" }
         , { text := "Just passing through.", nextNode := some "end_friendly" } ] })
    , ("escape_interest",
       { id := "escape_interest", speaker := "Old Timer"
         text := "Get out? Ha!"
         responses :=
         [ { text := "What kind of things?", nextNode := some "escape_hints" }
         , { text := "Never mind.", nextNode := some "end_neutral" } ] })
    , ("backstory",
       { id := "backstory", speaker := "Old Timer"
         text := "Twenty-three years."
         responses :=
         [ { text := "What do you see?", nextNode := some "escape_hints" }
         , { text := "That\x27s rough, man.", nextNode := some "end_friendly",
             effects := some [relEff 5] } ] })
    , ("escape_hints",
       { id := "escape_hints", speaker := "Old Timer"
         text := "The vents connect everything."
         responses :=
         [ { text := "Thanks for the tip.", nextNode := some "end_friendly" }
         , { text := "Anything else?", nextNode := some "more_hints" } ]
         effects := some [kEff "vent_system_hint", flagEff "told_about_vents"] })
    , ("more_hints",
       { id := "more_hints", speaker := "Old Timer"
         text := "You\x27ll need tools."
         responses :=
         [ { text := "When\x27s the best time to move around?", nextNode := some "guard_info" }
         , { text := "I\x27ll figure it out. Thanks.", nextNode := some "end_grateful" } ]
         effects := some [kEff "guard_station_tools"] })
    , ("escape_info",
       { id := "escape_info", speaker := "Old Timer"
         text := "I\x27ve thought about it for years."
         responses :=
         [ { text := "How do I access them?", nextNode := some "vent_access" }
         , { text := "I\x27ll think about it.", nextNode := some "end_neutral" } ] })
    , ("vent_access",
       { id := "vent_access", speaker := "Old Timer"
         text := "There\x27s a vent cover in your cell."
         responses :=
         [ { text := "Where can I get a screwdriver?", nextNode := some "more_hints" }
         , { text := "Got it. Thanks.", nextNode := some "end_grateful" } ]
         effects := some [kEff "vent_access_method", flagEff "told_about_vents"] })
    , ("guard_info",
       { id := "guard_info", speaker := "Old Timer"
         text := "Martinez is decent."
         responses :=
         [ { text := "When does Martinez patrol?", nextNode := some "patrol_timing" }
         , { text := "Good to know. Thanks.", nextNode := some "end_friendly" } ]
         effects := some [kEff "guard_martinez_info", flagEff "told_about_guard_schedule"] })
    , ("patrol_timing",
       { id := "patrol_timing", speaker := "Old Timer"
         text := "He starts at the east end near the guard station."
         responses :=
         [ { text := "That\x27s useful. Thanks.", nextNode := some "end_grateful" }
         , { text := "I\x27ll watch his pattern.", nextNode := some "end_friendly" } ]
         effects := some [kEff "guard_patrol_timing"] })
    , ("end_grateful",
       { id := "end_grateful", speaker := "Old Timer"
         text := "Don\x27t mention it. Literally."
         responses := []
         effects := some [relEff 10]
         isEnd := some true })
    , ("end_friendly",
       { id := "end_friendly", speaker := "Old Timer"
         text := "Watch yourself, kid."
         responses := []
         effects := some [relEff 5]
         isEnd := some true })
    , ("end_neutral",
       { id := "end_neutral", speaker := "Old Timer"
         text := "Alright then."
         responses := []
         isEnd := some true })
    , ("end_cold",
       { id := "end_cold", speaker := "Old Timer"
         text := "Suit yourself."
         responses := []
         isEnd := some true }) ] }

/-- `guardGenericDialogue` from dialogueData.ts. -/
def guardGenericDialogue : DialogueTree :=
  { id := "guard_generic"
    startNode := "confrontation_restricted"
    nodes :=
    [ ("confrontation_restricted",
       { id := "confrontation_restricted", speaker := "Guard"
         text := "Hey! What are you doing here?"
         responses :=
         [ { text := "I got lost, officer.", nextNode := some "excuse_lost" }
         , { text := "I was just looking for the bathroom.", nextNode := some "excuse_bathroom" }
         , { text := "Sorry, I\x27ll leave.", nextNode := some "comply" } ] })
    , ("excuse_lost",
       { id := "excuse_lost", speaker := "Guard"
         text := "Lost? You\x27ve been here long enough."
         responses := [ { text := "Yes, officer.", nextNode := some "warning" } ] })
    , ("excuse_bathroom",
       { id := "excuse_bathroom", speaker := "Guard"
         text := "The bathrooms are in your cell, inmate."
         responses := [ { text := "Yes, officer.", nextNode := some "warning" } ] })
    , ("comply",
       { id := "comply", speaker := "Guard"
         text := "Yeah, you better be sorry."
         responses := []
         isEnd := some true })
    , ("warning",
       { id := "warning", speaker := "Guard"
         text := "I catch you out of bounds again, it\x27s solitary."
         responses := [ { text := "Understood.", nextNode := some "end_warning" } ] })
    , ("end_warning",
       { id := "end_warning", speaker := "Guard"
         text := "Move along."
         responses := []
         isEnd := some true }) ] }

/-- `DIALOGUE_TREES` from dialogueData.ts. -/
def DIALOGUE_TREES : List (String × DialogueTree) :=
  [ ("old_timer_main", oldTimerDialogue), ("guard_generic", guardGenericDialogue) ]

/-- `getDialogueTree` from dialogueData.ts. -/
def getDialogueTree (treeId : String) : Option DialogueTree :=
  alookup DIALOGUE_TREES treeId

-- ========================================
-- GAME STORE (store.ts)
-- ========================================

/-- `DialogueState` from types.ts. -/
structure DialogueState where
  isActive : Bool
  currentTree : Option String
  currentNode : Option String
  npcId : Option String
  selectedResponse : ℕ
deriving DecidableEq, Repr

/-- `TextDisplay` from types.ts. -/
structure TextDisplay where
  isVisible : Bool
  text : String
  title : Option String
deriving DecidableEq, Repr

/-- The player fields read by the NPC/dialogue actions. -/
structure PlayerState where
  gridPosition : Position
  isSneaking : Bool
  isHiding : Bool
deriving DecidableEq, Repr

/-- The slice of the zustand `GameState` that the NPC and dialogue actions
read or write (`interaction.mode` and `interaction.textDisplay` stand for
the `interaction` object, whose remaining fields these actions never
touch). -/
structure GState where
  player : PlayerState
  currentRoom : Room
  npcs : List (String × NPCData)
  dialogue : DialogueState
  playerKnowledge : Finset String
  interactionMode : String
  textDisplay : TextDisplay

/-- `showText` from store.ts: switch the UI into text mode and display the
message. -/
def showText (st : GState) (text : String) (title : Option String) : GState :=
  { st with
    interactionMode := "text"
    textDisplay := { isVisible := true, text := text, title := title } }

/-- `updateNPC` from store.ts: merge a change set into the actor with the
given id (no-op when the id is unknown).  The change set is a function
because callers compute its field values from their own captured
snapshots. -/
def updateNPC (st : GState) (npcId : String) (changes : NPCData → NPCData) : GState :=
  match alookup st.npcs npcId with
  | none => st
  | some _ => { st with npcs := aupdate st.npcs npcId changes }

/-- `closeDialogue` from store.ts. -/
def closeDialogue (st : GState) : GState :=
  { st with
    dialogue := { isActive := false, currentTree := none, currentNode := none,
                  npcId := none, selectedResponse := 0 }
    interactionMode := "normal" }

/-- One effect application from `selectDialogueResponse` in store.ts.
All reads (`state.playerKnowledge`, `state.npcs`, `state.dialogue.npcId`)
go through the snapshot `s0` captured when the action began, while writes
land on the live store `s` — exactly the zustand `get()`/`set()` dance in
the source. -/
def applyEffect (s0 : GState) (s : GState) (e : DialogueEffect) : GState :=
  if e.etype = "knowledge" ∧ valTruthy e.value then
    { s with playerKnowledge := insert (valAsString e.value) s0.playerKnowledge }
  else if e.etype = "relationship" ∧ strTruthy s0.dialogue.npcId then
    match alookup s0.npcs (s0.dialogue.npcId.getD "") with
    | some npc0 =>
        updateNPC s (s0.dialogue.npcId.getD "")
          (fun npc => { npc with relationshipLevel := npc0.relationshipLevel + valAsInt e.value })
    | none => s
  else if e.etype = "flag" ∧ strTruthy e.flagName ∧ strTruthy s0.dialogue.npcId then
    match alookup s0.npcs (s0.dialogue.npcId.getD "") with
    | some npc0 =>
        updateNPC s (s0.dialogue.npcId.getD "")
          (fun npc =>
            { npc with flags := fun k => if k = e.flagName.getD "" then true else npc0.flags k })
    | none => s
  else s

/-- The `effects.forEach(...)` fold of `selectDialogueResponse`, with the
stale snapshot `s0` threaded through every read. -/
def applyEffects (s0 : GState) (s : GState) (es : List DialogueEffect) : GState :=
  es.foldl (applyEffect s0) s

/-- `selectDialogueResponse` from store.ts. -/
def selectDialogueResponse (st : GState) (responseIndex : ℕ) : GState :=
  if st.dialogue.isActive = false ∨ strTruthy st.dialogue.currentNode = false then st
  else
    let nodeId := st.dialogue.currentNode.getD ""
    let treeOpt := if strTruthy st.dialogue.currentTree then
        getDialogueTree (st.dialogue.currentTree.getD "") else none
    match treeOpt with
    | none => st
    | some tree =>
      match alookup tree.nodes nodeId with
      | none => st
      | some node =>
        if node.responses.length = 0 then closeDialogue st
        else
          match node.responses.get? responseIndex with
          | none => st
          | some response =>
            let s1 := match node.effects with
              | none => st
              | some es => applyEffects st st es
            let s2 := match response.effects with
              | none => s1
              | some es => applyEffects st s1 es
            match response.nextNode with
            | some nextNode =>
              if nextNode = "" then closeDialogue s2
              else
                match alookup tree.nodes nextNode with
                | some _ =>
                    { s2 with dialogue :=
                      { st.dialogue with currentNode := some nextNode, selectedResponse := 0 } }
                | none => closeDialogue s2
            | none => closeDialogue s2

/-- One effect application as §4.6 of the spec words it: each effect reads
the world state left by the previous one (no stale snapshot).  The
relationship write is the same unclamped addition the code performs; the
missing clamp is the subject of the relationship-range claim. -/
def applyEffectSpec (s : GState) (e : DialogueEffect) : GState := applyEffect s s e

/-- `selectResponse` as the spec describes it: on a node with responses,
apply the node's effects then the chosen response's effects sequentially
(each exactly once, every read seeing the previous write), then advance to
the response's next node when it exists in the tree, closing the session
otherwise; a node with zero responses just closes the session. -/
def selectResponseSpec (st : GState) (responseIndex : ℕ) : GState :=
  if st.dialogue.isActive = false ∨ strTruthy st.dialogue.currentNode = false then st
  else
    let nodeId := st.dialogue.currentNode.getD ""
    let treeOpt := if strTruthy st.dialogue.currentTree then
        getDialogueTree (st.dialogue.currentTree.getD "") else none
    match treeOpt with
    | none => st
    | some tree =>
      match alookup tree.nodes nodeId with
      | none => st
      | some node =>
        if node.responses.length = 0 then closeDialogue st
        else
          match node.responses.get? responseIndex with
          | none => st
          | some response =>
            let s1 := match node.effects with
              | none => st
              | some es => es.foldl applyEffectSpec st
            let s2 := match response.effects with
              | none => s1
              | some es => es.foldl applyEffectSpec s1
            match response.nextNode with
            | some nextNode =>
              if nextNode = "" then closeDialogue s2
              else
                match alookup tree.nodes nextNode with
                | some _ =>
                    { s2 with dialogue :=
                      { st.dialogue with currentNode := some nextNode, selectedResponse := 0 } }
                | none => closeDialogue s2
            | none => closeDialogue s2

/-- `startDialogue` from store.ts. -/
def startDialogue (st : GState) (npcId : String) : GState :=
  match alookup st.npcs npcId with
  | none => st
  | some npc =>
    if strTruthy npc.dialogueTree = false then st
    else if ¬ (npc.currentRoom = st.currentRoom.id) then
      showText st "You\x27re too far away to talk." none
    else if canTalkToNPC npc st.player.gridPosition = false then
      showText st "You\x27re too far away to talk." none
    else
      match getDialogueTree (npc.dialogueTree.getD "") with
      | none => st
      | some tree =>
        let startNodeId :=
          if npc.talkedTo = true ∧ (alookup tree.nodes "greeting_return").isSome then
            "greeting_return"
          else tree.startNode
        match alookup tree.nodes startNodeId with
        | none => st
        | some _ =>
          let st1 := updateNPC st npcId (fun n => { n with talkedTo := true })
          { st1 with
            dialogue := { isActive := true, currentTree := some tree.id,
                          currentNode := some startNodeId, npcId := some npcId,
                          selectedResponse := 0 }
            interactionMode := "dialogue" }

/-- One iteration of the `Object.keys(updatedNPCs).forEach` loop of
`updateNPCs` in store.ts: `acc.1` is the working actor copy being patched,
`acc.2` the live store that guard reactions write into. -/
noncomputable def updateNPCsStep (st : GState) (deltaTime : ℚ)
    (acc : List (String × NPCData) × GState) (npcId : String) :
    List (String × NPCData) × GState :=
  match alookup acc.1 npcId with
  | none => acc
  | some npc =>
    if ¬ (npc.currentRoom = st.currentRoom.id) then acc
    else
      let m := if npc.currentBehavior = "patrol" then
          let updates := updatePatrol npc deltaTime
          if updates.isEmpty then acc.1
          else aupdate acc.1 npcId (fun n => mergePatch n updates)
        else acc.1
      let s := if npc.type = "guard" ∧ st.player.isHiding = false then
          let detectionLevel :=
            calculateDetectionLevel npc st.player.gridPosition st.player.isSneaking
              st.currentRoom
          if shouldReactToPlayer npc detectionLevel then
            if strTruthy npc.dialogueTree then startDialogue acc.2 npcId else acc.2
          else acc.2
        else acc.2
      (m, s)

/-- `updateNPCs` from store.ts: iterate over the actor table, apply patrol
patches into a working copy, run guard detection against the snapshot `st`
taken at entry (skipped entirely while the player hides), and finally
overwrite `npcs` with the working copy. -/
noncomputable def updateNPCs (st : GState) (deltaTime : ℚ) : GState :=
  let res := (st.npcs.map Prod.fst).foldl (updateNPCsStep st deltaTime) (st.npcs, st)
  { res.2 with npcs := res.1 }

/-- The patrol-only reading of one loop iteration: the patrol patch of
`updateNPCsStep` and nothing else. -/
noncomputable def patrolOnlyStep (st : GState) (deltaTime : ℚ)
    (m : List (String × NPCData)) (npcId : String) : List (String × NPCData) :=
  match alookup m npcId with
  | none => m
  | some npc =>
    if ¬ (npc.currentRoom = st.currentRoom.id) then m
    else if npc.currentBehavior = "patrol" then
      let updates := updatePatrol npc deltaTime
      if updates.isEmpty then m else aupdate m npcId (fun n => mergePatch n updates)
    else m

/-- The patrol-only reading of one `updateNPCs` tick: every actor in the
current room with patrol behavior receives its `updatePatrol` patch, and
nothing else in the state changes.  This is the spec-level contract that
the hiding-player claim compares against. -/
noncomputable def npcsPatrolOnly (st : GState) (deltaTime : ℚ) : List (String × NPCData) :=
  (st.npcs.map Prod.fst).foldl (patrolOnlyStep st deltaTime) st.npcs

-- ========================================
-- SPEC-SIDE DEFINITIONS
-- ========================================

/-- `detectionLevel` as §4.3 of the spec words it: 0 outside the vision
cone (which embeds the line-of-sight test); otherwise base 1.0, times 0.6
iff sneaking, times the linear distance falloff `1 - d/visionRange`
clamped non-negative, with the final result clamped to `[0,1]`. -/
noncomputable def detectionLevelSpec (npc : NPCData) (playerPos : Position)
    (playerSneaking : Bool) (room : Room) : ℝ :=
  if isPlayerInVisionCone npc playerPos room = false then 0
  else
    let dx := playerPos.x - npc.position.x
    let dy := playerPos.y - npc.position.y
    let distance : ℝ := Real.sqrt (((dx * dx + dy * dy : ℤ) : ℚ) : ℝ)
    let base : ℝ := if playerSneaking then 1 * 0.6 else 1
    max 0 (min 1 (base * max 0 (1 - distance / ((npc.visionRange : ℚ) : ℝ))))

/-- The sample list of `hasLineOfSight` as the spec words it:
`max(|Δx|,|Δy|) + 1` evenly spaced samples, all of which must pass. -/
def lineOfSightSpec (fromPos toPos : Position) (room : Room) : Bool :=
  let dx := toPos.x - fromPos.x
  let dy := toPos.y - fromPos.y
  let distance := max (intAbs dx) (intAbs dy)
  (List.range (distance.toNat + 1)).all fun i =>
    losSampleOk fromPos room dx dy distance i

/-- Total relationship delta carried by an optional effect list. -/
def effectsRelDelta (es : Option (List DialogueEffect)) : ℤ :=
  ((es.getD []).map fun e => if e.etype = "relationship" then valAsInt e.value else 0).sum

/-- Relationship delta attached to a node's own effects. -/
def nodeRelDelta (t : DialogueTree) (nodeId : String) : ℤ :=
  match alookup t.nodes nodeId with
  | some n => effectsRelDelta n.effects
  | none => 0

/-- Relationship delta attached to one response of a node. -/
def responseRelDelta (t : DialogueTree) (nodeId : String) (i : ℕ) : ℤ :=
  match alookup t.nodes nodeId with
  | some n =>
    match n.responses.get? i with
    | some r => effectsRelDelta r.effects
    | none => 0
  | none => 0

-- ========================================
-- CONCRETE INPUTS FOR WITNESSES
-- ========================================

/-- A `w × h` all-floor tile grid. -/
def floorTiles (w h : ℕ) : List (List String) :=
  List.replicate h (List.replicate w "floor")

/-- Cell C-12, where the Old Timer lives (all-floor interior suffices for
the dialogue claims, which never consult tiles). -/
def cellRoom : Room := { id := "cell_c12", width := 10, height := 8, tiles := floorTiles 10 8 }

/-- The Old Timer actor, transcribed from the npcData registry. -/
noncomputable def oldTimerNPC : NPCData :=
  { id := "old_timer", name := "Old Timer", type := "inmate", sprite := "inmate_old"
    currentRoom := "cell_c12", position := ⟨2, 3⟩, direction := .down
    patrolRoute := [], currentPatrolIndex := 0, movementSpeed := 1
    isMoving := false, targetPosition := none
    pixelPosition := ⟨64, 96⟩, targetPixelPosition := ⟨64, 96⟩
    waitTimer := none, schedule := [], currentBehavior := "idle", alertness := 0
    visionRange := 0, visionAngle := 0
    dialogueTree := some "old_timer_main", relationshipLevel := 0, talkedTo := false
    isConscious := true, isAlive := true, flags := fun _ => false }

/-- A game state with the player standing adjacent to the Old Timer, no
dialogue open. -/
noncomputable def dialogueTestState : GState :=
  { player := { gridPosition := ⟨2, 4⟩, isSneaking := false, isHiding := false }
    currentRoom := cellRoom
    npcs := [("old_timer", oldTimerNPC)]
    dialogue := { isActive := false, currentTree := none, currentNode := none,
                  npcId := none, selectedResponse := 0 }
    playerKnowledge := ∅
    interactionMode := "normal"
    textDisplay := { isVisible := false, text := "", title := none } }

/-- The run used against the exactly-once claim: start the Old Timer
dialogue, pick "How long have you been here?" (to `backstory`), pick
"That\x27s rough, man." (+5, to `end_friendly`), then confirm at the
terminal node. -/
noncomputable def terminalEffectRun : GState :=
  selectDialogueResponse
    (selectDialogueResponse
      (selectDialogueResponse (startDialogue dialogueTestState "old_timer") 1) 1) 0

/-- The relationship delta the exactly-once claim attributes to that path:
node effects of the three nodes entered plus the two chosen responses. -/
def terminalRunClaimedDelta : ℤ :=
  nodeRelDelta oldTimerDialogue "greeting_first" +
    responseRelDelta oldTimerDialogue "greeting_first" 1 +
    nodeRelDelta oldTimerDialogue "backstory" +
    responseRelDelta oldTimerDialogue "backstory" 1 +
    nodeRelDelta oldTimerDialogue "end_friendly"

/-- A session sitting at `backstory` with the Old Timer at relationship 98
(inside the documented range), about to choose the +5 response. -/
noncomputable def nearCapState : GState :=
  { dialogueTestState with
    npcs := [("old_timer", { oldTimerNPC with relationshipLevel := 98, talkedTo := true })]
    dialogue := { isActive := true, currentTree := some "old_timer_main",
                  currentNode := some "backstory", npcId := some "old_timer",
                  selectedResponse := 0 }
    interactionMode := "dialogue" }

/-- An adjacent, conscious, alive, non-chasing actor with no dialogue tree
configured. -/
noncomputable def noTreeState : GState :=
  { dialogueTestState with
    npcs := [("old_timer", { oldTimerNPC with dialogueTree := none })] }

/-- The dialogue test state with the player hidden. -/
noncomputable def hidingState : GState :=
  { dialogueTestState with
    player := { gridPosition := ⟨2, 4⟩, isSneaking := false, isHiding := true } }

/-- The corridor guard of the registry, on its two-waypoint patrol route. -/
noncomputable def patrolGuardNPC : NPCData :=
  { id := "guard_martinez", name := "Officer Martinez", type := "guard", sprite := "guard_1"
    currentRoom := "corridor_b", position := ⟨2, 4⟩, direction := .right
    patrolRoute := [ ⟨"corridor_b", 2, 4, 2, some .right⟩, ⟨"corridor_b", 17, 4, 2, some .left⟩ ]
    currentPatrolIndex := 0, movementSpeed := 2
    isMoving := false, targetPosition := none
    pixelPosition := ⟨64, 128⟩, targetPixelPosition := ⟨64, 128⟩
    waitTimer := none
    schedule :=
      [ ("early_morning", { behavior := "idle", room := some "guard_station_b", patrolRoute := none })
      , ("breakfast", { behavior := "patrol", room := some "corridor_b",
                        patrolRoute := some "corridor_main" }) ]
    currentBehavior := "idle", alertness := 0
    visionRange := 5, visionAngle := 90
    dialogueTree := some "guard_generic", relationshipLevel := 0, talkedTo := false
    isConscious := true, isAlive := true, flags := fun _ => false }

/-- The detection-scenario watcher: `visionRange = 5`, `visionAngle = 90`,
facing down. -/
noncomputable def scenarioGuard : NPCData :=
  { patrolGuardNPC with
    id := "guard_scenario"
    currentRoom := "yard"
    position := ⟨2, 2⟩
    direction := .down
    currentBehavior := "patrol" }

/-- An open 8×8 room: every straight path has clear line-of-sight. -/
def openRoom : Room := { id := "yard", width := 8, height := 8, tiles := floorTiles 8 8 }

/-- A 5×5 room whose centre cell `(2,2)` is a wall. -/
def wallRoom : Room :=
  { id := "wall_room", width := 5, height := 5, tiles :=
    [ List.replicate 5 "floor"
    , List.replicate 5 "floor"
    , ["floor", "floor", "wall", "floor", "floor"]
    , List.replicate 5 "floor"
    , List.replicate 5 "floor" ] }

-- ========================================
-- TIME SYSTEM LEMMAS
-- ========================================

theorem minuteLoop_ge (m : ℚ) (h : ℤ) (hm : 60 ≤ m) :
    minuteLoop m h = minuteLoop (m - 60) (h + 1) := by
  rw [minuteLoop]
  simp [hm]

theorem minuteLoop_lt (m : ℚ) (h : ℤ) (hm : m < 60) : minuteLoop m h = (m, h) := by
  rw [minuteLoop]
  simp [not_le.mpr hm]

theorem hourLoop_ge (h d : ℤ) (hh : 24 ≤ h) : hourLoop h d = hourLoop (h - 24) (d + 1) := by
  rw [hourLoop]
  simp [hh]

theorem hourLoop_lt (h d : ℤ) (hh : h < 24) : hourLoop h d = (h, d) := by
  rw [hourLoop]
  simp [not_le.mpr hh]

theorem minuteLoop_char (m : ℚ) (h : ℤ) : 0 ≤ m →
    minuteLoop m h = (m - 60 * ⌊m / 60⌋, h + ⌊m / 60⌋) := by
  induction m, h using minuteLoop.induct with
  | case1 m h h60 ih =>
    intro hm
    rw [minuteLoop_ge _ _ h60, ih (by linarith)]
    have hf : ⌊(m - 60) / 60⌋ = ⌊m / 60⌋ - 1 := by
      have h1 : (m - 60) / 60 = m / 60 - 1 := by ring
      rw [h1, show (1 : ℚ) = ((1 : ℤ) : ℚ) from by norm_num, Int.floor_sub_int]
    rw [hf]
    refine Prod.ext ?_ ?_ <;> push_cast <;> ring
  | case2 m h h60 =>
    intro hm
    rw [minuteLoop_lt _ _ (not_le.mp h60)]
    have hf : ⌊m / 60⌋ = 0 := by
      rw [Int.floor_eq_zero_iff]
      constructor
      · positivity
      · rw [div_lt_one (by norm_num)]
        linarith [not_le.mp h60]
    simp [hf]

theorem hourLoop_char (h d : ℤ) : 0 ≤ h → hourLoop h d = (h % 24, d + h / 24) := by
  induction h, d using hourLoop.induct with
  | case1 h d h24 ih =>
    intro hh
    rw [hourLoop_ge _ _ h24, ih (by omega)]
    refine Prod.ext ?_ ?_ <;> simp <;> omega
  | case2 h d h24 =>
    intro hh
    rw [hourLoop_lt _ _ (by omega)]
    refine Prod.ext ?_ ?_ <;> simp <;> omega

theorem gameTime_ext (a b : GameTime) (h1 : a.day = b.day) (h2 : a.hour = b.hour)
    (h3 : a.minute = b.minute) (h4 : a.totalMinutes = b.totalMinutes) : a = b := by
  cases a; cases b; simp_all

theorem advanceTime_int_char (t : GameTime) (Δ s : ℚ) (k : ℤ)
    (hk : Δ / 1000 * s = (k : ℚ)) (hk0 : 0 ≤ k) (hm : 0 ≤ t.minute) (hh : 0 ≤ t.hour) :
    (advanceTime t Δ s).newTime =
      { day := t.day + (t.hour + (t.minute + k) / 60) / 24
        hour := max 0 (min 23 ((t.hour + (t.minute + k) / 60) % 24))
        minute := max 0 (min 59 ((t.minute + k) % 60))
        totalMinutes := t.totalMinutes + Δ / 1000 * s } := by
  simp only [advanceTime, hk]
  have hcast : (t.minute : ℚ) + (k : ℚ) = ((t.minute + k : ℤ) : ℚ) := by push_cast; ring
  rw [hcast, minuteLoop_char _ _ (by exact_mod_cast (by omega : (0:ℤ) ≤ t.minute + k))]
  have hfloor : ⌊((t.minute + k : ℤ) : ℚ) / 60⌋ = (t.minute + k) / 60 := by
    rw [show (60 : ℚ) = ((60 : ℕ) : ℚ) from by norm_num, Rat.floor_intCast_div_natCast]
    norm_num
  simp only [hfloor]
  rw [hourLoop_char _ _
    (by have := Int.ediv_nonneg (by omega : (0:ℤ) ≤ t.minute + k)
          (by norm_num : (0:ℤ) ≤ 60); omega)]
  refine gameTime_ext _ _ ?_ ?_ ?_ ?_
  · simp
  · simp
  · simp only []
    have h1 : ((t.minute + k : ℤ) : ℚ) - 60 * (((t.minute + k) / 60 : ℤ) : ℚ) =
        (((t.minute + k) - 60 * ((t.minute + k) / 60) : ℤ) : ℚ) := by push_cast; ring
    rw [h1, Int.floor_intCast]
    have h2 : (t.minute + k) - 60 * ((t.minute + k) / 60) = (t.minute + k) % 60 := by omega
    rw [h2]
  · simp

theorem clamp59 (x : ℤ) : max 0 (min 59 (x % 60)) = x % 60 := by
  have h1 : 0 ≤ x % 60 := Int.emod_nonneg _ (by norm_num)
  have h2 : x % 60 ≤ 59 := by omega
  rw [min_eq_right h2, max_eq_right h1]

theorem clamp23 (x : ℤ) : max 0 (min 23 (x % 24)) = x % 24 := by
  have h1 : 0 ≤ x % 24 := Int.emod_nonneg _ (by norm_num)
  have h2 : x % 24 ≤ 23 := by omega
  rw [min_eq_right h2, max_eq_right h1]

-- ========================================
-- CLAIM THEOREMS: TIME (C3, C5)
-- ========================================

/-- C5: the period lookup maps every wall-clock time at or after the wrap
window's 22:00 start, or before its 06:00 end, to the wrapping `lockdown`
window, and the concrete scenario — a clock at 23:30 advanced by 60 real
seconds at scale 1 — lands on 00:30 of the next day with the period still
`lockdown` and `periodChanged = false`. -/
theorem lockdown_wrap_period :
    (∀ h m : ℤ, 0 ≤ h → h ≤ 23 → 0 ≤ m → m ≤ 59 →
      (timeToMinutes h m ≥ timeToMinutes 22 0 ∨ timeToMinutes h m < timeToMinutes 6 0) →
      getPeriodForTime h m = "lockdown") ∧
    advanceTime ⟨1, 23, 30, 1050⟩ 60000 1 =
      { newTime := ⟨2, 0, 30, 1110⟩, periodChanged := false, newPeriod := "lockdown" } := by
  constructor
  · intro h m h0 h1 m0 m1 hw
    have key : ∀ hf : Fin 24, ∀ mf : Fin 60,
        ((hf.1 : ℤ) * 60 + (mf.1 : ℤ) ≥ 1320 ∨ (hf.1 : ℤ) * 60 + (mf.1 : ℤ) < 360) →
        getPeriodForTime hf.1 mf.1 = "lockdown" := by decide
    have hh : ((⟨h.toNat, by omega⟩ : Fin 24).1 : ℤ) = h := by
      simp [Int.toNat_of_nonneg h0]
    have hm2 : ((⟨m.toNat, by omega⟩ : Fin 60).1 : ℤ) = m := by
      simp [Int.toNat_of_nonneg m0]
    have hkey := key ⟨h.toNat, by omega⟩ ⟨m.toNat, by omega⟩
    rw [hh, hm2] at hkey
    apply hkey
    simp only [timeToMinutes] at hw
    omega
  · have e1 : ((30 : ℤ) : ℚ) + 60000 / 1000 * 1 = 90 := by norm_num
    simp only [advanceTime, e1]
    rw [minuteLoop_ge _ _ (by norm_num), minuteLoop_lt _ _ (by norm_num)]
    norm_num
    rw [hourLoop_ge _ _ (by norm_num), hourLoop_lt _ _ (by norm_num)]
    norm_num
    exact ⟨by decide, by decide⟩

/-- Witness for C5 at 23:30. -/
theorem lockdown_wrap_period_witness :
    ((0:ℤ) ≤ 23 ∧ (23:ℤ) ≤ 23 ∧ (0:ℤ) ≤ 30 ∧ (30:ℤ) ≤ 59 ∧
      (timeToMinutes 23 30 ≥ timeToMinutes 22 0 ∨ timeToMinutes 23 30 < timeToMinutes 6 0)) ∧
    getPeriodForTime 23 30 = "lockdown" :=
  ⟨⟨by decide, by decide, by decide, by decide, by decide⟩,
   lockdown_wrap_period.1 23 30 (by decide) (by decide) (by decide) (by decide) (by decide)⟩

/-- C3 counterexample: advancing 06:00 by two 500 ms ticks at scale 1
leaves the stored minute at 0, while a single 1000 ms advance yields
minute 1 — the fractional half game-minute of each tick is discarded from
the stored clock. -/
theorem advanceTime_split_counterexample :
    (advanceTime (advanceTime ⟨1, 6, 0, 0⟩ 500 1).newTime 500 1).newTime.minute = 0 ∧
    (advanceTime ⟨1, 6, 0, 0⟩ 1000 1).newTime.minute = 1 := by
  have h1 : (advanceTime ⟨1, 6, 0, 0⟩ 500 1).newTime = ⟨1, 6, 0, 1/2⟩ := by
    have e1 : ((0 : ℤ) : ℚ) + 500 / 1000 * 1 = 1/2 := by norm_num
    simp only [advanceTime, e1]
    rw [minuteLoop_lt _ _ (by norm_num), hourLoop_lt _ _ (by norm_num)]
    refine gameTime_ext _ _ ?_ ?_ ?_ ?_ <;> norm_num
  constructor
  · rw [h1]
    have e1 : ((0 : ℤ) : ℚ) + 500 / 1000 * 1 = 1/2 := by norm_num
    simp only [advanceTime, e1]
    rw [minuteLoop_lt _ _ (by norm_num)]
    norm_num
  · have e1 : ((0 : ℤ) : ℚ) + 1000 / 1000 * 1 = 1 := by norm_num
    simp only [advanceTime, e1]
    rw [minuteLoop_lt _ _ (by norm_num)]
    norm_num

/-- C3 amended: `totalMinutes` accumulates exactly — for every clock,
every pair of tick lengths and every scale, advancing by `a` then `b`
gives the same `totalMinutes` as advancing by `a + b` in one call — and
for a well-formed clock (hour, minute within range) advancing by two real
durations that each convert to a whole non-negative number of
game-minutes equals the single combined advance on every stored field;
only fractional game-minute remainders (see the counterexample) are
dropped between ticks, and only from the stored day/hour/minute. -/
theorem advanceTime_split_exact :
    (∀ (t : GameTime) (a b s : ℚ),
      (advanceTime (advanceTime t a s).newTime b s).newTime.totalMinutes =
        (advanceTime t (a + b) s).newTime.totalMinutes) ∧
    (∀ (t : GameTime) (a b s : ℚ) (ka kb : ℤ),
      a / 1000 * s = (ka : ℚ) → b / 1000 * s = (kb : ℚ) →
      0 ≤ ka → 0 ≤ kb → 0 ≤ t.minute → 0 ≤ t.hour →
      (advanceTime (advanceTime t a s).newTime b s).newTime =
        (advanceTime t (a + b) s).newTime) := by
  constructor
  · intro t a b s
    simp only [advanceTime]
    ring
  · intro t a b s ka kb hka hkb hka0 hkb0 hm hh
    have hkab : (a + b) / 1000 * s = ((ka + kb : ℤ) : ℚ) := by
      push_cast
      rw [← hka, ← hkb]
      ring
    rw [advanceTime_int_char t a s ka hka hka0 hm hh]
    rw [advanceTime_int_char _ b s kb hkb hkb0 (le_max_left _ _) (le_max_left _ _)]
    rw [advanceTime_int_char t (a + b) s (ka + kb) hkab (by omega) hm hh]
    simp only [clamp59, clamp23]
    refine gameTime_ext _ _ ?_ ?_ ?_ ?_ <;> simp only []
    · omega
    · omega
    · omega
    · ring

/-- Witness for the amended C3: 60 s then 120 s at scale 1 equals one
180 s advance on the whole stored clock. -/
theorem advanceTime_split_exact_witness :
    ((60000 : ℚ) / 1000 * 1 = ((60 : ℤ) : ℚ) ∧ (120000 : ℚ) / 1000 * 1 = ((120 : ℤ) : ℚ)) ∧
    (advanceTime (advanceTime ⟨1, 6, 0, 0⟩ 60000 1).newTime 120000 1).newTime =
      (advanceTime ⟨1, 6, 0, 0⟩ (60000 + 120000) 1).newTime :=
  ⟨⟨by norm_num, by norm_num⟩,
   advanceTime_split_exact.2 ⟨1, 6, 0, 0⟩ 60000 120000 1 60 120 (by norm_num) (by norm_num)
     (by decide) (by decide) (by decide) (by decide)⟩

-- ========================================
-- CLAIM THEOREMS: DIALOGUE EFFECTS (C1, C2)
-- ========================================

/-- C2: the relationship-delta effect is applied without any clamp — from
the in-range value 98, choosing the +5 response of `backstory` stores 103,
outside the documented [-100, 100] range. -/
theorem relationship_delta_unclamped :
    (alookup (selectDialogueResponse nearCapState 1).npcs "old_timer").map
        (·.relationshipLevel) = some 103 ∧
    ¬ ((103 : ℤ) ≤ 100) :=
  ⟨by rfl, by decide⟩

/-- C1 counterexample: the run `startDialogue` → "How long have you been
here?" → "That\x27s rough, man." → confirm at `end_friendly` leaves the
session closed, but only the response's +5 is applied; the +5 node effect
of the terminal node `end_friendly` entered on that path is never applied,
so the final relationship (5) differs from the path's attached total
(10). -/
theorem dialogue_terminal_effect_lost :
    terminalEffectRun.dialogue.isActive = false ∧
    (alookup terminalEffectRun.npcs "old_timer").map (·.relationshipLevel) = some 5 ∧
    terminalRunClaimedDelta = 10 ∧
    (alookup terminalEffectRun.npcs "old_timer").map (·.relationshipLevel) ≠
      some (oldTimerNPC.relationshipLevel + terminalRunClaimedDelta) :=
  ⟨by rfl, by rfl, by rfl, by decide⟩

theorem alookup_mem {α : Type} (l : List (String × α)) (k : String) (v : α)
    (h : alookup l k = some v) : v ∈ l.map Prod.snd := by
  induction l with
  | nil => simp [alookup] at h
  | cons p rest ih =>
    rw [alookup] at h
    split_ifs at h
    · simp_all
    · simp [ih h]

theorem getDialogueTree_cases (tid : String) (t : DialogueTree)
    (h : getDialogueTree tid = some t) : t = oldTimerDialogue ∨ t = guardGenericDialogue := by
  unfold getDialogueTree DIALOGUE_TREES alookup at h
  split_ifs at h <;> simp_all [alookup]

/-- C1 amended: on the configured dialogue trees, one response selection of
the engine coincides exactly with the spec-level step: a zero-response node
closes the session with no effect applied; otherwise the node's own
effects and then the chosen response's effects are each applied exactly
once in order (each read seeing the previous write — the engine's stale
snapshot reads collapse to this because no configured selection carries
two effects of the same kind), after which the session moves to the
response's next node when it exists and closes otherwise.  Hence a run
that selects responses down to a terminal node always ends closed, with
exactly the non-terminal-node and chosen-response effects applied once
each; effects attached to a zero-response terminal node are never
applied (see the counterexample). -/
theorem selectDialogueResponse_eq_spec (st : GState) (i : ℕ) :
    selectDialogueResponse st i = selectResponseSpec st i := by
  simp only [selectDialogueResponse, selectResponseSpec]
  by_cases h1 : st.dialogue.isActive = false ∨ strTruthy st.dialogue.currentNode = false
  · simp only [if_pos h1]
  · simp only [if_neg h1]
    by_cases h2 : strTruthy st.dialogue.currentTree = true
    case neg => simp only [if_neg h2]
    case pos =>
      simp only [if_pos h2]
      rcases hgt : getDialogueTree (st.dialogue.currentTree.getD "") with _ | tree
      · simp only [hgt]
      · simp only [hgt]
        rcases getDialogueTree_cases _ _ hgt with rfl | rfl
        · rcases hnode : alookup oldTimerDialogue.nodes (st.dialogue.currentNode.getD "")
            with _ | node
          · rfl
          · have hmem := alookup_mem _ _ _ hnode
            simp only [oldTimerDialogue, List.map] at hmem
            fin_cases hmem <;>
              first
              | rfl
              | (rcases i with _ | _ | _ | j <;> rfl)
        · rcases hnode : alookup guardGenericDialogue.nodes (st.dialogue.currentNode.getD "")
            with _ | node
          · rfl
          · have hmem := alookup_mem _ _ _ hnode
            simp only [guardGenericDialogue, List.map] at hmem
            fin_cases hmem <;>
              first
              | rfl
              | (rcases i with _ | _ | _ | j <;> rfl)

-- ========================================
-- CLAIM THEOREMS: PATROL, SCHEDULE, DIALOGUE GUARDS, HIDING (C6, C7, C8, C10)
-- ========================================

/-- C6: in patrol behavior with a non-empty route and not moving, a tick
with `waitTimer` below the current waypoint's wait duration only adds the
tick delta to `waitTimer`; once the duration is reached, the tick advances
the patrol index modulo the route length, targets that waypoint, faces it
by the directional rule (horizontal dominance picks left/right, otherwise
— ties included — vertical picks up/down), resets `waitTimer` to 0 and
starts moving. -/
theorem updatePatrol_waiting (npc : NPCData) (Δ : ℚ)
    (hb : npc.currentBehavior = "patrol") (hr : ¬ npc.patrolRoute.length = 0)
    (hm : npc.isMoving = false) :
    (npc.waitTimer.getD 0 <
        ((npc.patrolRoute.get? npc.currentPatrolIndex).getD defaultPoint).wait →
      updatePatrol npc Δ = { waitTimer := some (npc.waitTimer.getD 0 + Δ) }) ∧
    (¬ npc.waitTimer.getD 0 <
        ((npc.patrolRoute.get? npc.currentPatrolIndex).getD defaultPoint).wait →
      updatePatrol npc Δ =
        { isMoving := some true
          targetPosition := some (some
            ⟨((npc.patrolRoute.get? ((npc.currentPatrolIndex + 1) % npc.patrolRoute.length)).getD
                defaultPoint).col,
             ((npc.patrolRoute.get? ((npc.currentPatrolIndex + 1) % npc.patrolRoute.length)).getD
                defaultPoint).row⟩)
          targetPixelPosition := some
            ⟨(((((npc.patrolRoute.get? ((npc.currentPatrolIndex + 1) % npc.patrolRoute.length)).getD
                defaultPoint).col : ℚ) * TILE_SIZE : ℚ) : ℝ),
             (((((npc.patrolRoute.get? ((npc.currentPatrolIndex + 1) % npc.patrolRoute.length)).getD
                defaultPoint).row : ℚ) * TILE_SIZE : ℚ) : ℝ)⟩
          currentPatrolIndex := some ((npc.currentPatrolIndex + 1) % npc.patrolRoute.length)
          waitTimer := some 0
          direction := some
            (if intAbs (((npc.patrolRoute.get? ((npc.currentPatrolIndex + 1) %
                    npc.patrolRoute.length)).getD defaultPoint).col - npc.position.x) >
                intAbs (((npc.patrolRoute.get? ((npc.currentPatrolIndex + 1) %
                    npc.patrolRoute.length)).getD defaultPoint).row - npc.position.y) then
              (if ((npc.patrolRoute.get? ((npc.currentPatrolIndex + 1) %
                    npc.patrolRoute.length)).getD defaultPoint).col - npc.position.x > 0 then
                Direction.right else Direction.left)
            else
              (if ((npc.patrolRoute.get? ((npc.currentPatrolIndex + 1) %
                    npc.patrolRoute.length)).getD defaultPoint).row - npc.position.y > 0 then
                Direction.down else Direction.up)) }) := by
  have hcond : ¬ (¬ (npc.currentBehavior = "patrol") ∨ npc.patrolRoute.length = 0) := by
    simp [hb, hr]
  constructor
  · intro hwait
    rw [updatePatrol.eq_def]
    simp only [if_neg hcond, if_pos hm, if_pos hwait]
  · intro hwait
    rw [updatePatrol.eq_def]
    simp only [if_neg hcond, if_pos hm, if_neg hwait]
    rfl

/-- Witness for C6: the corridor guard waiting at its first waypoint. -/
theorem updatePatrol_waiting_witness :
    (scenarioGuard.currentBehavior = "patrol" ∧ ¬ scenarioGuard.patrolRoute.length = 0 ∧
      scenarioGuard.isMoving = false ∧
      scenarioGuard.waitTimer.getD 0 <
        ((scenarioGuard.patrolRoute.get? scenarioGuard.currentPatrolIndex).getD
          defaultPoint).wait) ∧
    updatePatrol scenarioGuard (1/2) =
      { waitTimer := some (scenarioGuard.waitTimer.getD 0 + 1/2) } :=
  ⟨⟨rfl, by decide, rfl, by decide⟩,
   (updatePatrol_waiting scenarioGuard (1/2) rfl (by decide) rfl).1 (by decide)⟩

/-- C7: on a period change, an actor without a schedule entry is left
unchanged; with an entry, the entry's behavior is applied (a no-op when it
already matches), and a different target room relocates the actor to that
room's canonical spawn position with movement reset only when neither the
old nor the new room is the player's current room; otherwise the actor is
not relocated. -/
theorem updateNPCSchedule_applies (npc : NPCData) (period : String)
    (playerRoom : Option String) :
    (alookup npc.schedule period = none →
      mergePatch npc (updateNPCSchedule npc period playerRoom) = npc) ∧
    (∀ entry, alookup npc.schedule period = some entry →
      (¬ (strTruthy entry.room = true ∧ ¬ entry.room = some npc.currentRoom) →
        mergePatch npc (updateNPCSchedule npc period playerRoom) =
          { npc with currentBehavior := entry.behavior }) ∧
      (strTruthy entry.room = true → ¬ entry.room = some npc.currentRoom →
        ((¬ some npc.currentRoom = playerRoom ∧ ¬ entry.room = playerRoom) →
          mergePatch npc (updateNPCSchedule npc period playerRoom) =
            { npc with
              currentBehavior := entry.behavior
              currentRoom := entry.room.getD ""
              position := getSpawnPositionForRoom (entry.room.getD "")
              pixelPosition :=
                ⟨((((getSpawnPositionForRoom (entry.room.getD "")).x : ℚ) * TILE_SIZE : ℚ) : ℝ),
                 ((((getSpawnPositionForRoom (entry.room.getD "")).y : ℚ) * TILE_SIZE : ℚ) : ℝ)⟩
              targetPixelPosition :=
                ⟨((((getSpawnPositionForRoom (entry.room.getD "")).x : ℚ) * TILE_SIZE : ℚ) : ℝ),
                 ((((getSpawnPositionForRoom (entry.room.getD "")).y : ℚ) * TILE_SIZE : ℚ) : ℝ)⟩
              isMoving := false
              targetPosition := none }) ∧
        ((some npc.currentRoom = playerRoom ∨ entry.room = playerRoom) →
          mergePatch npc (updateNPCSchedule npc period playerRoom) =
            { npc with currentBehavior := entry.behavior }))) := by
  constructor
  · intro hnone
    simp only [updateNPCSchedule, hnone]
    rfl
  · intro entry hentry
    simp only [updateNPCSchedule, hentry]
    constructor
    · intro hno
      rw [if_neg hno]
      by_cases hbe : entry.behavior = npc.currentBehavior
      · rw [if_neg (by simp [hbe])]
        simp [mergePatch, hbe]
      · rw [if_pos hbe]
        simp [mergePatch]
    · intro h1 h2
      rw [if_pos ⟨h1, h2⟩]
      constructor
      · intro hvis
        rw [if_pos hvis]
        by_cases hbe : entry.behavior = npc.currentBehavior
        · rw [if_neg (by simp [hbe])]
          simp [mergePatch, hbe]
        · rw [if_pos hbe]
          simp [mergePatch]
      · intro hvis
        rw [if_neg (by tauto)]
        by_cases hbe : entry.behavior = npc.currentBehavior
        · rw [if_neg (by simp [hbe])]
          simp [mergePatch, hbe]
        · rw [if_pos hbe]
          simp [mergePatch]

/-- Witness for C7: the corridor guard relocating to the guard station
while the player is in cell C-14. -/
theorem updateNPCSchedule_applies_witness :
    (alookup patrolGuardNPC.schedule "early_morning" =
        some { behavior := "idle", room := some "guard_station_b", patrolRoute := none } ∧
      strTruthy (some "guard_station_b") = true ∧
      ¬ (some "guard_station_b" : Option String) = some patrolGuardNPC.currentRoom ∧
      (¬ some patrolGuardNPC.currentRoom = some "cell_c14" ∧
        ¬ (some "guard_station_b" : Option String) = (some "cell_c14" : Option String))) ∧
    mergePatch patrolGuardNPC
        (updateNPCSchedule patrolGuardNPC "early_morning" (some "cell_c14")) =
      { patrolGuardNPC with
        currentBehavior := "idle"
        currentRoom := "guard_station_b"
        position := getSpawnPositionForRoom "guard_station_b"
        pixelPosition :=
          ⟨((((getSpawnPositionForRoom "guard_station_b").x : ℚ) * TILE_SIZE : ℚ) : ℝ),
           ((((getSpawnPositionForRoom "guard_station_b").y : ℚ) * TILE_SIZE : ℚ) : ℝ)⟩
        targetPixelPosition :=
          ⟨((((getSpawnPositionForRoom "guard_station_b").x : ℚ) * TILE_SIZE : ℚ) : ℝ),
           ((((getSpawnPositionForRoom "guard_station_b").y : ℚ) * TILE_SIZE : ℚ) : ℝ)⟩
        isMoving := false
        targetPosition := none } :=
  ⟨⟨by decide, by decide, by decide, by decide, by decide⟩,
   ((updateNPCSchedule_applies patrolGuardNPC "early_morning" (some "cell_c14")).2
      { behavior := "idle", room := some "guard_station_b", patrolRoute := none }
      (by decide)).2 (by decide) (by decide) |>.1 (by decide)⟩

/-- C8 amended: `startDialogue` opens a session only if the actor shares
the player's room, is adjacent, conscious, alive, has a configured tree
and is not chasing; the "too far away" message is surfaced exactly for the
out-of-room and `canTalkToNPC` failures, while a missing dialogue tree is
a silent no-op; every failure path leaves the state untouched apart from
the message display. -/
theorem startDialogue_guarded (st : GState) (npcId : String) (npc : NPCData)
    (hn : alookup st.npcs npcId = some npc) :
    (strTruthy npc.dialogueTree = false → startDialogue st npcId = st) ∧
    (strTruthy npc.dialogueTree = true → ¬ npc.currentRoom = st.currentRoom.id →
      startDialogue st npcId = showText st "You\x27re too far away to talk." none) ∧
    (strTruthy npc.dialogueTree = true → npc.currentRoom = st.currentRoom.id →
      canTalkToNPC npc st.player.gridPosition = false →
      startDialogue st npcId = showText st "You\x27re too far away to talk." none) ∧
    (st.dialogue.isActive = false → (startDialogue st npcId).dialogue.isActive = true →
      npc.currentRoom = st.currentRoom.id ∧ strTruthy npc.dialogueTree = true ∧
      npc.isConscious = true ∧ npc.isAlive = true ∧ ¬ npc.currentBehavior = "chase" ∧
      isNPCAdjacentToPlayer npc st.player.gridPosition = true) := by
  refine ⟨?_, ?_, ?_, ?_⟩
  · intro hf
    simp only [startDialogue, hn]
    rw [if_pos (by simp [hf])]
  · intro ht hroom
    simp only [startDialogue, hn]
    rw [if_neg (by simp [ht]), if_pos hroom]
  · intro ht hroom htalk
    simp only [startDialogue, hn]
    rw [if_neg (by simp [ht]), if_neg (by simp [hroom]), if_pos (by simp [htalk])]
  · intro hoff hon
    simp only [startDialogue, hn] at hon
    by_cases h1 : strTruthy npc.dialogueTree = false
    · rw [if_pos (by simp [h1])] at hon
      rw [hoff] at hon
      exact absurd hon (by simp)
    · rw [if_neg (by simp [h1])] at hon
      by_cases h2 : npc.currentRoom = st.currentRoom.id
      · rw [if_neg (by simp [h2])] at hon
        by_cases h3 : canTalkToNPC npc st.player.gridPosition = false
        · rw [if_pos (by simp [h3])] at hon
          simp [showText] at hon
          rw [hoff] at hon
          exact absurd hon (by simp)
        · have h3' : canTalkToNPC npc st.player.gridPosition = true := by
            cases hcase : canTalkToNPC npc st.player.gridPosition
            · exact absurd hcase h3
            · rfl
          have hcomp : npc.isConscious = true ∧ npc.isAlive = true ∧
              ¬ npc.currentBehavior = "chase" ∧
              isNPCAdjacentToPlayer npc st.player.gridPosition = true := by
            unfold canTalkToNPC at h3'
            split_ifs at h3'
            rename_i c1 c3
            rcases not_or.mp c1 with ⟨ha, hb⟩
            exact ⟨by simpa using ha, by simpa using hb, c3, h3'⟩
          exact ⟨h2, by simpa using h1, hcomp.1, hcomp.2.1, hcomp.2.2.1, hcomp.2.2.2⟩
      · rw [if_pos h2] at hon
        simp [showText] at hon
        rw [hoff] at hon
        exact absurd hon (by simp)

/-- Witness for the amended C8: the missing-tree failure is a silent
no-op. -/
theorem startDialogue_guarded_witness :
    (alookup noTreeState.npcs "old_timer" =
        some { oldTimerNPC with dialogueTree := none } ∧
      strTruthy ({ oldTimerNPC with dialogueTree := none } : NPCData).dialogueTree = false) ∧
    startDialogue noTreeState "old_timer" = noTreeState :=
  ⟨⟨rfl, rfl⟩,
   (startDialogue_guarded noTreeState "old_timer" { oldTimerNPC with dialogueTree := none }
      rfl).1 rfl⟩

/-- C8 counterexample: an adjacent, conscious, alive, idle actor whose
`dialogueTree` is unset — a precondition of the claim fails, yet the call
surfaces no "too far away" message (it is a silent no-op), contradicting
the claim that every precondition failure surfaces the message. -/
theorem startDialogue_missing_tree_silent :
    (alookup noTreeState.npcs "old_timer").map (·.isConscious) = some true ∧
    (alookup noTreeState.npcs "old_timer").map (·.isAlive) = some true ∧
    (alookup noTreeState.npcs "old_timer").map (·.currentBehavior) = some "idle" ∧
    (alookup noTreeState.npcs "old_timer").map
      (fun n => isNPCAdjacentToPlayer n noTreeState.player.gridPosition) = some true ∧
    (alookup noTreeState.npcs "old_timer").map (·.dialogueTree) = some none ∧
    startDialogue noTreeState "old_timer" = noTreeState ∧
    (startDialogue noTreeState "old_timer").textDisplay.isVisible = false ∧
    (startDialogue noTreeState "old_timer").dialogue.isActive = false :=
  ⟨rfl, rfl, rfl, by decide, rfl, rfl, rfl, rfl⟩

/-- C10: while the player is hiding, one NPC tick performs only the
patrol updates — no detection level is acted upon, no guard reacts and no
confrontation dialogue starts: the result is the input state with exactly
the patrol-only actor table. -/
theorem updateNPCs_while_hiding (st : GState) (Δ : ℚ) (h : st.player.isHiding = true) :
    updateNPCs st Δ = { st with npcs := npcsPatrolOnly st Δ } := by
  have hstep : ∀ (acc : List (String × NPCData) × GState) (k : String),
      updateNPCsStep st Δ acc k = (patrolOnlyStep st Δ acc.1 k, acc.2) := by
    intro acc k
    simp only [updateNPCsStep, patrolOnlyStep]
    rcases hl : alookup acc.1 k with _ | npc
    · rfl
    · by_cases hroom : ¬ (npc.currentRoom = st.currentRoom.id)
      · simp only [if_pos hroom]
      · simp only [if_neg hroom]
        have hguard : ¬ (npc.type = "guard" ∧ st.player.isHiding = false) := by
          rintro ⟨-, hf⟩
          rw [h] at hf
          exact absurd hf (by simp)
        simp only [if_neg hguard]
  have hfold : ∀ (keys : List String) (m : List (String × NPCData)),
      keys.foldl (updateNPCsStep st Δ) (m, st) =
        (keys.foldl (patrolOnlyStep st Δ) m, st) := by
    intro keys
    induction keys with
    | nil => intro m; rfl
    | cons k rest ih =>
      intro m
      simp only [List.foldl, hstep]
      exact ih _
  simp only [updateNPCs, npcsPatrolOnly, hfold]

/-- Witness for C10. -/
theorem updateNPCs_while_hiding_witness :
    hidingState.player.isHiding = true ∧
    updateNPCs hidingState (1/2) =
      { hidingState with npcs := npcsPatrolOnly hidingState (1/2) } :=
  ⟨rfl, updateNPCs_while_hiding hidingState (1/2) rfl⟩

-- ========================================
-- LINE-OF-SIGHT LEMMAS
-- ========================================

theorem intAbs_nonneg (n : ℤ) : 0 ≤ intAbs n := by
  unfold intAbs
  split <;> omega

theorem losLoop_iff (fromPos : Position) (room : Room) (dx dy distance : ℤ) (i : ℕ) :
    losLoop fromPos room dx dy distance i = true ↔
      ∀ j : ℕ, i ≤ j → (j : ℤ) ≤ distance →
        losSampleOk fromPos room dx dy distance j = true := by
  have H : ∀ (fuel : ℕ) (i : ℕ), (distance + 1 - (i : ℤ)).toNat ≤ fuel →
      (losLoop fromPos room dx dy distance i = true ↔
        ∀ j : ℕ, i ≤ j → (j : ℤ) ≤ distance →
          losSampleOk fromPos room dx dy distance j = true) := by
    intro fuel
    induction fuel with
    | zero =>
      intro i hf
      have hgt : ¬ (i : ℤ) ≤ distance := by omega
      rw [losLoop, if_neg hgt]
      simp only [true_iff]
      intro j hij hjd
      exact absurd hjd (by push_cast at *; omega)
    | succ n ih =>
      intro i hf
      by_cases hle : (i : ℤ) ≤ distance
      · rw [losLoop, if_pos hle, Bool.and_eq_true, ih (i + 1) (by push_cast at *; omega)]
        constructor
        · rintro ⟨hok, hrest⟩ j hij hjd
          rcases Nat.eq_or_lt_of_le hij with rfl | hlt
          · exact hok
          · exact hrest j hlt hjd
        · intro hall
          exact ⟨hall i le_rfl hle, fun j hj hjd => hall j (by omega) hjd⟩
      · rw [losLoop, if_neg hle]
        simp only [true_iff]
        intro j hij hjd
        exact absurd hjd (by push_cast at *; omega)
  exact H _ i le_rfl

theorem hasLineOfSight_iff (fromPos toPos : Position) (room : Room) :
    hasLineOfSight fromPos toPos room = true ↔
      ∀ i ∈ List.range
          ((max (intAbs (toPos.x - fromPos.x)) (intAbs (toPos.y - fromPos.y))).toNat + 1),
        losSampleOk fromPos room (toPos.x - fromPos.x) (toPos.y - fromPos.y)
          (max (intAbs (toPos.x - fromPos.x)) (intAbs (toPos.y - fromPos.y))) i = true := by
  have hd : 0 ≤ max (intAbs (toPos.x - fromPos.x)) (intAbs (toPos.y - fromPos.y)) :=
    le_trans (intAbs_nonneg _) (le_max_left _ _)
  simp only [hasLineOfSight]
  rw [losLoop_iff]
  constructor
  · intro h j hj
    have hj' := List.mem_range.mp hj
    exact h j (Nat.zero_le j) (by omega)
  · intro h j hj0 hjd
    exact h j (List.mem_range.mpr (by omega))

-- ========================================
-- CLAIM THEOREM: LINE OF SIGHT (C9)
-- ========================================

/-- C9: `hasLineOfSight` succeeds exactly when all of the
`max(|Δx|,|Δy|)+1` evenly spaced, rounded samples lie inside the room on
non-wall tiles; concretely, a straight path through the wall cell of
`wallRoom` fails, the unobstructed parallel path succeeds, and the
degenerate same-cell ray on a floor tile succeeds. -/
theorem hasLineOfSight_samples :
    (∀ (fromPos toPos : Position) (room : Room),
      hasLineOfSight fromPos toPos room = true ↔
        ∀ i ∈ List.range
            ((max (intAbs (toPos.x - fromPos.x)) (intAbs (toPos.y - fromPos.y))).toNat + 1),
          losSampleOk fromPos room (toPos.x - fromPos.x) (toPos.y - fromPos.y)
            (max (intAbs (toPos.x - fromPos.x)) (intAbs (toPos.y - fromPos.y))) i = true) ∧
    hasLineOfSight ⟨0, 2⟩ ⟨4, 2⟩ wallRoom = false ∧
    hasLineOfSight ⟨0, 1⟩ ⟨4, 1⟩ wallRoom = true ∧
    hasLineOfSight ⟨1, 1⟩ ⟨1, 1⟩ wallRoom = true := by
  refine ⟨hasLineOfSight_iff, ?_, ?_, ?_⟩
  · have h2 : losSampleOk ⟨0, 2⟩ wallRoom ((4:ℤ) - 0) ((2:ℤ) - 2)
        (max (intAbs ((4:ℤ) - 0)) (intAbs ((2:ℤ) - 2))) 2 = false := by
      simp only [losSampleOk, jsRound, tileAt, wallRoom, intAbs]
      norm_num
      decide
    cases hcase : hasLineOfSight ⟨0, 2⟩ ⟨4, 2⟩ wallRoom
    · rfl
    · exfalso
      have htrue := (hasLineOfSight_iff ⟨0, 2⟩ ⟨4, 2⟩ wallRoom).mp hcase 2
        (List.mem_range.mpr (by decide))
      rw [htrue] at h2
      exact absurd h2 (by simp)
  · apply (hasLineOfSight_iff ⟨0, 1⟩ ⟨4, 1⟩ wallRoom).mpr
    intro i hi
    rw [show (max (intAbs ((4:ℤ) - 0)) (intAbs ((1:ℤ) - 1))).toNat + 1 = 5 from by decide] at hi
    fin_cases hi <;>
      (simp only [losSampleOk, jsRound, tileAt, wallRoom, intAbs]; norm_num) <;> decide
  · apply (hasLineOfSight_iff ⟨1, 1⟩ ⟨1, 1⟩ wallRoom).mpr
    intro i hi
    rw [show (max (intAbs ((1:ℤ) - 1)) (intAbs ((1:ℤ) - 1))).toNat + 1 = 1 from by decide] at hi
    fin_cases hi <;>
      (simp only [losSampleOk, jsRound, tileAt, wallRoom, intAbs]; norm_num) <;> decide

/-- Witness for C9: the sampling characterization at the unobstructed
concrete path. -/
theorem hasLineOfSight_samples_witness :
    hasLineOfSight ⟨0, 1⟩ ⟨4, 1⟩ wallRoom = true ↔
      ∀ i ∈ List.range
          ((max (intAbs ((4:ℤ) - 0)) (intAbs ((1:ℤ) - 1))).toNat + 1),
        losSampleOk ⟨0, 1⟩ wallRoom ((4:ℤ) - 0) ((1:ℤ) - 1)
          (max (intAbs ((4:ℤ) - 0)) (intAbs ((1:ℤ) - 1))) i = true :=
  hasLineOfSight_samples.1 ⟨0, 1⟩ ⟨4, 1⟩ wallRoom


-- ========================================
-- DETECTION-LEVEL LEMMAS (C4)
-- ========================================

theorem cone_dist_le_aux (npc : NPCData) (p : Position)
    (c1 : ¬ npc.visionRange = 0)
    (c2 : ¬ Real.sqrt ((((p.x - npc.position.x) * (p.x - npc.position.x) +
        (p.y - npc.position.y) * (p.y - npc.position.y) : ℤ) : ℚ) : ℝ) >
        ((npc.visionRange : ℚ) : ℝ)) :
    Real.sqrt ((((p.x - npc.position.x) * (p.x - npc.position.x) +
        (p.y - npc.position.y) * (p.y - npc.position.y) : ℤ) : ℚ) : ℝ) ≤
      ((npc.visionRange : ℚ) : ℝ) ∧
    (0 : ℝ) < ((npc.visionRange : ℚ) : ℝ) := by
  have hle := not_lt.mp c2
  refine ⟨hle, ?_⟩
  rcases lt_or_eq_of_le (le_trans (Real.sqrt_nonneg _) hle) with hpos | heq
  · exact hpos
  · exfalso
    apply c1
    have h0 : ((npc.visionRange : ℚ) : ℝ) = 0 := heq.symm
    exact_mod_cast h0

theorem cone_dist_le (npc : NPCData) (p : Position) (room : Room)
    (h : isPlayerInVisionCone npc p room = true) :
    Real.sqrt ((((p.x - npc.position.x) * (p.x - npc.position.x) +
        (p.y - npc.position.y) * (p.y - npc.position.y) : ℤ) : ℚ) : ℝ) ≤
      ((npc.visionRange : ℚ) : ℝ) ∧
    (0 : ℝ) < ((npc.visionRange : ℚ) : ℝ) := by
  simp only [isPlayerInVisionCone] at h
  split_ifs at h
  all_goals exact cone_dist_le_aux npc p (by assumption) (by assumption)

theorem calculateDetectionLevel_eq_spec (npc : NPCData) (p : Position) (s : Bool)
    (room : Room) :
    calculateDetectionLevel npc p s room = detectionLevelSpec npc p s room := by
  unfold calculateDetectionLevel detectionLevelSpec
  by_cases hc : isPlayerInVisionCone npc p room = false
  · simp [hc]
  · simp only [if_neg hc]
    have hc' : isPlayerInVisionCone npc p room = true := by
      cases hcase : isPlayerInVisionCone npc p room
      · exact absurd hcase hc
      · rfl
    obtain ⟨hle, hpos⟩ := cone_dist_le npc p room hc'
    have hf : (0:ℝ) ≤ 1 - Real.sqrt ((((p.x - npc.position.x) * (p.x - npc.position.x) +
        (p.y - npc.position.y) * (p.y - npc.position.y) : ℤ) : ℚ) : ℝ) /
        ((npc.visionRange : ℚ) : ℝ) := by
      rw [sub_nonneg, div_le_one hpos]
      exact hle
    rw [max_eq_right hf]

theorem dist_zero_eq (a b : Position)
    (h : Real.sqrt ((((b.x - a.x) * (b.x - a.x) +
        (b.y - a.y) * (b.y - a.y) : ℤ) : ℚ) : ℝ) = 0) :
    a = b := by
  have hnn : (0:ℝ) ≤ ((((b.x - a.x) * (b.x - a.x) +
      (b.y - a.y) * (b.y - a.y) : ℤ) : ℚ) : ℝ) := by
    push_cast
    nlinarith [mul_self_nonneg ((b.x:ℝ) - a.x), mul_self_nonneg ((b.y:ℝ) - a.y)]
  have h0 : ((((b.x - a.x) * (b.x - a.x) +
      (b.y - a.y) * (b.y - a.y) : ℤ) : ℚ) : ℝ) = 0 :=
    (Real.sqrt_eq_zero hnn).mp h
  have hint : (b.x - a.x) * (b.x - a.x) + (b.y - a.y) * (b.y - a.y) = 0 := by
    exact_mod_cast h0
  have hx : b.x - a.x = 0 := by
    nlinarith [mul_self_nonneg (b.x - a.x), mul_self_nonneg (b.y - a.y)]
  have hy : b.y - a.y = 0 := by
    nlinarith [mul_self_nonneg (b.x - a.x), mul_self_nonneg (b.y - a.y)]
  cases a
  cases b
  simp_all
  omega

theorem detection_cone_false (npc : NPCData) (p : Position) (s : Bool) (room : Room)
    (h : isPlayerInVisionCone npc p room = false) :
    calculateDetectionLevel npc p s room = 0 := by
  simp [calculateDetectionLevel, h]

theorem detection_zero_range (npc : NPCData) (p : Position) (s : Bool) (room : Room)
    (h : npc.visionRange = 0) : calculateDetectionLevel npc p s room = 0 := by
  have hcone : isPlayerInVisionCone npc p room = false := by
    simp only [isPlayerInVisionCone]
    rw [if_pos h]
  simp [calculateDetectionLevel, hcone]

theorem detection_blocked (npc : NPCData) (p : Position) (s : Bool) (room : Room)
    (hne : ¬ npc.position = p) (hlos : hasLineOfSight npc.position p room = false) :
    calculateDetectionLevel npc p s room = 0 := by
  have hcone : isPlayerInVisionCone npc p room = false := by
    simp only [isPlayerInVisionCone]
    split_ifs
    any_goals rfl
    · exact absurd (dist_zero_eq npc.position p (by assumption)) hne
    · exact hlos
    · exact hlos
  simp [calculateDetectionLevel, hcone]

theorem los_2_5 : hasLineOfSight ⟨2, 2⟩ ⟨2, 5⟩ openRoom = true := by
  apply (hasLineOfSight_iff ⟨2, 2⟩ ⟨2, 5⟩ openRoom).mpr
  intro i hi
  rw [show (max (intAbs ((2:ℤ) - 2)) (intAbs ((5:ℤ) - 2))).toNat + 1 = 4 from by decide] at hi
  fin_cases hi <;>
    (simp only [losSampleOk, jsRound, tileAt, openRoom, floorTiles, intAbs]; norm_num) <;> decide

theorem los_2_3 : hasLineOfSight ⟨2, 2⟩ ⟨2, 3⟩ openRoom = true := by
  apply (hasLineOfSight_iff ⟨2, 2⟩ ⟨2, 3⟩ openRoom).mpr
  intro i hi
  rw [show (max (intAbs ((2:ℤ) - 2)) (intAbs ((3:ℤ) - 2))).toNat + 1 = 2 from by decide] at hi
  fin_cases hi <;>
    (simp only [losSampleOk, jsRound, tileAt, openRoom, floorTiles, intAbs]; norm_num) <;> decide

theorem cone_2_5 : isPlayerInVisionCone scenarioGuard ⟨2, 5⟩ openRoom = true := by
  have hd : Real.sqrt ((((2 - 2) * (2 - 2) + (5 - 2) * (5 - 2) : ℤ) : ℚ) : ℝ) = 3 := by
    rw [show ((((2 - 2) * (2 - 2) + (5 - 2) * (5 - 2) : ℤ) : ℚ) : ℝ) = 9 from by norm_num,
      show (9:ℝ) = 3 ^ 2 from by norm_num]
    exact Real.sqrt_sq (by norm_num)
  have hatan : mathAtan2 ((5 - 2 : ℤ) : ℝ) ((2 - 2 : ℤ) : ℝ) = Real.pi / 2 := by
    simp only [mathAtan2]
    norm_num
  have habs : |mathAtan2 ((5 - 2 : ℤ) : ℝ) ((2 - 2 : ℤ) : ℝ) * (180 / Real.pi) -
      getAngleFromDirection Direction.down| = 0 := by
    rw [hatan]
    simp only [getAngleFromDirection]
    rw [abs_eq_zero]
    have hpi := Real.pi_ne_zero
    field_simp
    ring
  simp only [isPlayerInVisionCone, scenarioGuard, patrolGuardNPC]
  split_ifs with c1 c2 c3 c4 c5 c6
  · exact absurd c1 (by norm_num)
  · rw [hd] at c2
    exact absurd c2 (by norm_num)
  · rfl
  · rw [habs] at c4
    exact absurd c4 (by norm_num)
  · exact los_2_5
  · rw [habs] at c6
    exact absurd c6 (by norm_num)
  · exact los_2_5

theorem cone_2_3 : isPlayerInVisionCone scenarioGuard ⟨2, 3⟩ openRoom = true := by
  have hd : Real.sqrt ((((2 - 2) * (2 - 2) + (3 - 2) * (3 - 2) : ℤ) : ℚ) : ℝ) = 1 := by
    rw [show ((((2 - 2) * (2 - 2) + (3 - 2) * (3 - 2) : ℤ) : ℚ) : ℝ) = 1 from by norm_num]
    exact Real.sqrt_one
  have hatan : mathAtan2 ((3 - 2 : ℤ) : ℝ) ((2 - 2 : ℤ) : ℝ) = Real.pi / 2 := by
    simp only [mathAtan2]
    norm_num
  have habs : |mathAtan2 ((3 - 2 : ℤ) : ℝ) ((2 - 2 : ℤ) : ℝ) * (180 / Real.pi) -
      getAngleFromDirection Direction.down| = 0 := by
    rw [hatan]
    simp only [getAngleFromDirection]
    rw [abs_eq_zero]
    have hpi := Real.pi_ne_zero
    field_simp
    ring
  simp only [isPlayerInVisionCone, scenarioGuard, patrolGuardNPC]
  split_ifs with c1 c2 c3 c4 c5 c6
  · exact absurd c1 (by norm_num)
  · rw [hd] at c2
    exact absurd c2 (by norm_num)
  · rfl
  · rw [habs] at c4
    exact absurd c4 (by norm_num)
  · exact los_2_3
  · rw [habs] at c6
    exact absurd c6 (by norm_num)
  · exact los_2_3

theorem detect_2_5 : calculateDetectionLevel scenarioGuard ⟨2, 5⟩ true openRoom = 0.24 := by
  have hd : Real.sqrt ((((2 - 2) * (2 - 2) + (5 - 2) * (5 - 2) : ℤ) : ℚ) : ℝ) = 3 := by
    rw [show ((((2 - 2) * (2 - 2) + (5 - 2) * (5 - 2) : ℤ) : ℚ) : ℝ) = 9 from by norm_num,
      show (9:ℝ) = 3 ^ 2 from by norm_num]
    exact Real.sqrt_sq (by norm_num)
  simp only [calculateDetectionLevel]
  rw [if_neg (by simp [cone_2_5])]
  simp only [scenarioGuard, patrolGuardNPC]
  rw [hd]
  norm_num

theorem detect_2_3 : calculateDetectionLevel scenarioGuard ⟨2, 3⟩ false openRoom = 0.8 := by
  have hd : Real.sqrt ((((2 - 2) * (2 - 2) + (3 - 2) * (3 - 2) : ℤ) : ℚ) : ℝ) = 1 := by
    rw [show ((((2 - 2) * (2 - 2) + (3 - 2) * (3 - 2) : ℤ) : ℚ) : ℝ) = 1 from by norm_num]
    exact Real.sqrt_one
  simp only [calculateDetectionLevel]
  rw [if_neg (by simp [cone_2_3])]
  simp only [scenarioGuard, patrolGuardNPC]
  rw [hd]
  norm_num

theorem los_blocked_0_4 : hasLineOfSight ⟨0, 2⟩ ⟨4, 2⟩ wallRoom = false := by
  have h2 : losSampleOk ⟨0, 2⟩ wallRoom ((4:ℤ) - 0) ((2:ℤ) - 2)
      (max (intAbs ((4:ℤ) - 0)) (intAbs ((2:ℤ) - 2))) 2 = false := by
    simp only [losSampleOk, jsRound, tileAt, wallRoom, intAbs]
    norm_num
    decide
  cases hcase : hasLineOfSight ⟨0, 2⟩ ⟨4, 2⟩ wallRoom
  · rfl
  · exfalso
    have htrue := (hasLineOfSight_iff ⟨0, 2⟩ ⟨4, 2⟩ wallRoom).mp hcase 2
      (List.mem_range.mpr (by decide))
    rw [htrue] at h2
    exact absurd h2 (by simp)

-- ========================================
-- CLAIM THEOREM: DETECTION LEVEL (C4)
-- ========================================

/-- C4: `calculateDetectionLevel` agrees everywhere with the spec formula —
0 outside the vision cone, otherwise base 1.0, times exactly 0.6 iff the
player is sneaking, times the linear falloff `1 - distance/visionRange`,
clamped to `[0,1]` — and in particular returns 0 whenever `visionRange = 0`
or the line of sight to a distinct player cell is blocked; the sneaking
scenario at distance 3 south of the down-facing range-5, 90° guard yields
exactly 0.24, and the non-sneaking one at distance 1 yields exactly 0.8. -/
theorem calculateDetectionLevel_spec :
    (∀ (npc : NPCData) (p : Position) (s : Bool) (room : Room),
      calculateDetectionLevel npc p s room = detectionLevelSpec npc p s room) ∧
    (∀ (npc : NPCData) (p : Position) (s : Bool) (room : Room),
      isPlayerInVisionCone npc p room = false →
        calculateDetectionLevel npc p s room = 0) ∧
    (∀ (npc : NPCData) (p : Position) (s : Bool) (room : Room),
      npc.visionRange = 0 → calculateDetectionLevel npc p s room = 0) ∧
    (∀ (npc : NPCData) (p : Position) (s : Bool) (room : Room),
      ¬ npc.position = p → hasLineOfSight npc.position p room = false →
        calculateDetectionLevel npc p s room = 0) ∧
    calculateDetectionLevel scenarioGuard ⟨2, 5⟩ true openRoom = 0.24 ∧
    calculateDetectionLevel scenarioGuard ⟨2, 3⟩ false openRoom = 0.8 :=
  ⟨calculateDetectionLevel_eq_spec, detection_cone_false, detection_zero_range,
   detection_blocked, detect_2_5, detect_2_3⟩

/-- Witness for C4: the zero-range branch at the Old Timer (whose
`visionRange` is 0) and the blocked-line-of-sight branch at a guard whose
straight path to the player crosses the wall cell of `wallRoom`. -/
theorem calculateDetectionLevel_spec_witness :
    calculateDetectionLevel oldTimerNPC ⟨5, 5⟩ false cellRoom = 0 ∧
    calculateDetectionLevel { scenarioGuard with position := ⟨0, 2⟩ } ⟨4, 2⟩ true wallRoom = 0 :=
  ⟨calculateDetectionLevel_spec.2.2.1 oldTimerNPC ⟨5, 5⟩ false cellRoom rfl,
   calculateDetectionLevel_spec.2.2.2.1 { scenarioGuard with position := ⟨0, 2⟩ }
     ⟨4, 2⟩ true wallRoom (by decide) los_blocked_0_4⟩


end Escape
